import Mathlib

/-!
Verification development for the SEG typed-view module (`src/seg.rs`) of a
C3D parameter engine.

The repository source provides the `Seg` typed view: its structure, its
`PartialEq` implementation, `Seg::from_parameters` (destructive extraction
from a parameter store) and `Seg::write` (re-serialization into raw
parameter-record bytes).  The surrounding engine (the `Parameter` value
type and its record serialization, the parameter store with `remove`, the
vendor numeric codec, and the record decoder) is not part of the provided
source; those definitions are modelled from the specification document and
are marked `Modelled from the spec:` in their doc comments.

Machine floats (`f32`) are modelled by their 32-bit patterns (`Fin (2 ^ 32)`);
no float arithmetic occurs anywhere in the modelled code, only storage,
byte (de)serialization and IEEE-754 equality comparison, all of which are
exact functions of the bit pattern.  Bytes are modelled as `Nat`; every
byte emitted by the modelled serializer is below 256 by construction.
-/

/-- The bit pattern of an IEEE-754 single-precision float.  `f32` values
are never computed with in the modelled code, only stored, compared and
(de)serialized, so the bit pattern is a complete model. -/
def F32 : Type := Fin (2 ^ 32)

instance : DecidableEq F32 := by
  unfold F32
  infer_instance

instance : OfNat F32 0 := ⟨(0 : Fin (2 ^ 32))⟩

/-- The value (bit pattern) of an `F32` as a natural number. -/
def F32.val (x : F32) : Nat := Fin.val x

/-- Build an `F32` from a natural number below `2 ^ 32`. -/
def F32.mk (n : Nat) (h : n < 2 ^ 32) : F32 := ⟨n, h⟩

/-- An `f32` bit pattern denotes a NaN iff the exponent bits are all ones
and the mantissa is nonzero. -/
def F32.isNaN (x : F32) : Bool :=
  decide (x.val / 2 ^ 23 % 2 ^ 8 = 255) && decide (x.val % 2 ^ 23 ≠ 0)

/-- An `f32` bit pattern denotes a zero (of either sign) iff all bits
other than the sign bit are zero. -/
def F32.isZero (x : F32) : Bool :=
  decide (x.val % 2 ^ 31 = 0)

/-- IEEE-754 equality on `f32` bit patterns, the semantics of Rust's `==`
on `f32`: NaN compares unequal to everything (itself included), the two
zeros compare equal, and otherwise equality is bit equality. -/
def f32Eq (a b : F32) : Bool :=
  if a.isNaN || b.isNaN then false
  else if a.isZero && b.isZero then true
  else decide (a = b)

/-- Element-wise IEEE-754 equality of two `f32` sequences, the semantics of
Rust's `==` on `Vec<f32>`: equal lengths and pairwise `f32Eq`. -/
def listF32Eq : List F32 → List F32 → Bool
  | [], [] => true
  | a :: as', b :: bs' => f32Eq a b && listF32Eq as' bs'
  | _, _ => false

/-- A two-dimensional grid of `f32` values, modelling the `grid::Grid<f32>`
type used by the source: declared row and column counts plus the row-major
flattened contents. -/
structure Grid where
  rows : Nat
  cols : Nat
  data : List F32
deriving DecidableEq

/-- `Grid::flatten`: the row-major flattened contents of the grid. -/
def Grid.flatten (g : Grid) : List F32 := g.data

/-- Modelled from the spec: the tagged flattened payload of a `Parameter`,
one of text, signed-8 integers, signed-16 integers, or 32-bit floats. -/
inductive ParameterData where
  /-- Text payload, stored as raw bytes. -/
  | char (bytes : List Nat)
  /-- Signed 8-bit integer payload. -/
  | int8 (values : List Int)
  /-- Signed 16-bit integer payload. -/
  | int16 (values : List Int)
  /-- 32-bit float payload, stored as bit patterns. -/
  | float (values : List F32)
deriving DecidableEq

/-- Modelled from the spec: one typed, dimensioned parameter value — an
ordered sequence of dimension extents (empty = scalar), the flattened data
matching the product of extents, a locked flag, and a description. -/
structure Parameter where
  dimensions : List Nat
  data : ParameterData
  locked : Bool
  description : String
deriving DecidableEq

/-- Modelled from the spec: the scalar-float `Parameter` constructor used
by `Seg::write` (`Parameter::float`). -/
def Parameter.float (x : F32) : Parameter :=
  ⟨[], .float [x], false, ""⟩

/-- Modelled from the spec: the float-grid `Parameter` constructor used by
`Seg::write` (`Parameter::float_grid`): extents from the grid's declared
dimensions, data from its row-major flattened contents. -/
def Parameter.floatGrid (g : Grid) : Parameter :=
  ⟨[g.rows, g.cols], .float g.data, false, ""⟩

/-- Modelled from the spec: the error kinds of parameter-section
processing that this development needs: a stored tag not matching the type
a typed view expects, stored extents not matching the documented shape, and
a malformed record during decode. -/
inductive C3dParseError where
  | unexpectedType
  | dimensionMismatch
  | malformedRecord
deriving DecidableEq

/-- Modelled from the spec: the write-side error kind: a typed view's
`write` cannot resolve its group id because the group was never created. -/
inductive C3dWriteError where
  | unknownGroupReference
deriving DecidableEq

/-- Modelled from the spec: the vendor byte/float-layout variant
(`Processor`), selected once per file: host-ordered IEEE-754 (Intel),
legacy-minicomputer layout (DEC), alternate workstation layout (SGI/MIPS).
Each variant is a byte-layout bijection on the fixed-width encodings. -/
inductive Processor where
  | intel
  | dec
  | sgiMips
deriving DecidableEq

/-- The four little-endian bytes of a 32-bit pattern. -/
def f32LeBytes (x : F32) : List Nat :=
  [x.val % 256, x.val / 256 % 256, x.val / 65536 % 256, x.val / 16777216 % 256]

/-- Modelled from the spec: `encode_f32` — serialize an `f32` bit pattern
into four bytes under the selected vendor layout (a byte permutation of the
little-endian encoding). -/
def encodeF32 (proc : Processor) (x : F32) : List Nat :=
  match proc, f32LeBytes x with
  | .intel, [b0, b1, b2, b3] => [b0, b1, b2, b3]
  | .dec, [b0, b1, b2, b3] => [b2, b3, b0, b1]
  | .sgiMips, [b0, b1, b2, b3] => [b3, b2, b1, b0]
  | _, _ => []

/-- Reassemble a 32-bit pattern from four little-endian bytes. -/
def f32OfLeBytes (b0 b1 b2 b3 : Nat) : F32 :=
  ⟨(b0 + 256 * b1 + 65536 * b2 + 16777216 * b3) % 2 ^ 32, Nat.mod_lt _ (by norm_num)⟩

/-- Modelled from the spec: `decode_f32` — deserialize four bytes into an
`f32` bit pattern under the selected vendor layout (inverse of
`encodeF32`). -/
def decodeF32 (proc : Processor) (a b c d : Nat) : F32 :=
  match proc with
  | .intel => f32OfLeBytes a b c d
  | .dec => f32OfLeBytes c d a b
  | .sgiMips => f32OfLeBytes d c b a

/-- Modelled from the spec: `encode_i16` applied to an unsigned 16-bit
quantity (used for the record's next-record offset field): two bytes,
little-endian for the Intel and DEC layouts, big-endian for SGI/MIPS. -/
def encodeU16 (proc : Processor) (n : Nat) : List Nat :=
  match proc with
  | .intel => [n % 256, n / 256 % 256]
  | .dec => [n % 256, n / 256 % 256]
  | .sgiMips => [n / 256 % 256, n % 256]

/-- The two's-complement byte of a signed 8-bit integer. -/
def i8Byte (i : Int) : Nat := (i.emod 256).toNat

/-- The signed 8-bit integer denoted by a byte. -/
def byteToI8 (b : Nat) : Int := if b < 128 then (b : Int) else (b : Int) - 256

/-- Modelled from the spec: `encode_i16` — two's-complement 16-bit
serialization of a signed integer under the selected vendor layout. -/
def encodeI16 (proc : Processor) (i : Int) : List Nat :=
  encodeU16 proc (i.emod 65536).toNat

/-- The number of data elements a `ParameterData` payload holds. -/
def ParameterData.count : ParameterData → Nat
  | .char bytes => bytes.length
  | .int8 values => values.length
  | .int16 values => values.length
  | .float values => values.length

/-- Modelled from the spec: the one-byte data-type tag of each payload
variant: text / 1-byte integer / 2-byte integer / 4-byte float, the text
tag being the two's-complement byte of -1. -/
def ParameterData.typeTag : ParameterData → Nat
  | .char _ => 255
  | .int8 _ => 1
  | .int16 _ => 2
  | .float _ => 4

/-- Modelled from the spec: the flattened data of a payload serialized
element-by-element via the vendor codec. -/
def encodeData (proc : Processor) : ParameterData → List Nat
  | .char bytes => bytes
  | .int8 values => values.map i8Byte
  | .int16 values => values.flatMap (encodeI16 proc)
  | .float values => values.flatMap (encodeF32 proc)

/-- Modelled from the spec: case-insensitive name comparison, the matching
discipline of the parameter store (group and parameter names are
case-insensitive unique). -/
def eqCI (a b : String) : Bool := a.data.map Char.toUpper == b.data.map Char.toUpper

/-- Modelled from the spec: one group of the parameter store: a stable
positive integer id, a name, a description, a locked flag, and the
parameters it still owns, keyed by name. -/
structure ParamGroup where
  id : Nat
  name : String
  description : String
  locked : Bool
  params : List (String × Parameter)
deriving DecidableEq

/-- Modelled from the spec: the parameter store (`Parameters`): an
insertion-ordered collection of groups. -/
structure Parameters where
  groups : List ParamGroup
deriving DecidableEq

/-- Detach the first parameter matching a name (case-insensitively) from a
group's parameter list, returning it with the remaining list. -/
def removeParamFromList : List (String × Parameter) → String → Option Parameter × List (String × Parameter)
  | [], _ => (none, [])
  | (n, p) :: rest, target =>
    if eqCI n target then (some p, rest)
    else
      let r := removeParamFromList rest target
      (r.1, (n, p) :: r.2)

/-- Look up the first parameter matching a name (case-insensitively) in a
group's parameter list. -/
def lookupParam : List (String × Parameter) → String → Option Parameter
  | [], _ => none
  | (n, p) :: rest, target => if eqCI n target then some p else lookupParam rest target

/-- Detach a parameter from the first group matching the group name,
returning it with the updated group list. -/
def removeFromGroups : List ParamGroup → String → String → Option Parameter × List ParamGroup
  | [], _, _ => (none, [])
  | g :: rest, groupName, paramName =>
    if eqCI g.name groupName then
      let r := removeParamFromList g.params paramName
      (r.1, ⟨g.id, g.name, g.description, g.locked, r.2⟩ :: rest)
    else
      let r := removeFromGroups rest groupName paramName
      (r.1, g :: r.2)

/-- Modelled from the spec: `Parameters::remove(group_name, parameter_name)`
— detaches and returns the parameter if present (absent if the group or
name does not exist), transferring ownership to the caller.  The store
after the call is returned alongside, modelling the `&mut` receiver. -/
def Parameters.remove (ps : Parameters) (groupName paramName : String) : Option Parameter × Parameters :=
  let r := removeFromGroups ps.groups groupName paramName
  (r.1, ⟨r.2⟩)

/-- Find the first group matching a name (case-insensitively). -/
def findGroup : List ParamGroup → String → Option ParamGroup
  | [], _ => none
  | g :: rest, groupName => if eqCI g.name groupName then some g else findGroup rest groupName

/-- Non-destructive lookup of a parameter by group and parameter name; the
value `Parameters.remove` would detach. -/
def Parameters.getParam (ps : Parameters) (groupName paramName : String) : Option Parameter :=
  match findGroup ps.groups groupName with
  | none => none
  | some g => lookupParam g.params paramName

/-- The per-group metadata of a store (everything except the owned
parameters), used to state that extraction never edits group records. -/
def Parameters.skeleton (ps : Parameters) : List (Nat × String × String × Bool) :=
  ps.groups.map fun g => (g.id, g.name, g.description, g.locked)

/-- A parameter list is well-formed when its names are pairwise distinct
case-insensitively (the store invariant). -/
def wfParamList (l : List (String × Parameter)) : Prop :=
  l.Pairwise fun a b => eqCI a.1 b.1 = false

/-- A store is well-formed when group names are pairwise distinct
case-insensitively and each group's parameter list is well-formed (the
store invariant). -/
def wfStore (ps : Parameters) : Prop :=
  ps.groups.Pairwise (fun a b => eqCI a.name b.name = false) ∧
    ∀ g ∈ ps.groups, wfParamList g.params

instance (l : List (String × Parameter)) : Decidable (wfParamList l) := by
  unfold wfParamList
  infer_instance

instance (ps : Parameters) : Decidable (wfStore ps) := by
  unfold wfStore
  have : DecidablePred fun g : ParamGroup => wfParamList g.params := fun g => by
    unfold wfParamList
    infer_instance
  infer_instance

/-- Modelled from the spec: the fallible projection of a generic
`Parameter` to an `f32` scalar (`TryFrom<&Parameter> for f32`): the stored
tag must be float (else `UnexpectedType`) and the extents must describe a
scalar holding exactly one element (else `DimensionMismatch`). -/
def tryF32 (p : Parameter) : Except C3dParseError F32 :=
  match p.data with
  | .float values =>
    match p.dimensions, values with
    | [], [x] => .ok x
    | _, _ => .error .dimensionMismatch
  | _ => .error .unexpectedType

/-- Modelled from the spec: the fallible projection of a generic
`Parameter` to the documented 3×2 float grid
(`TryFrom<&Parameter> for Grid<f32>` at the documented shape): the stored
tag must be float (else `UnexpectedType`) and the extents must be the
documented 3×2 shape with six elements (else `DimensionMismatch`). -/
def tryFloatGrid (p : Parameter) : Except C3dParseError Grid :=
  match p.data with
  | .float values =>
    if p.dimensions = [3, 2] ∧ values.length = 6 then .ok ⟨3, 2, values⟩
    else .error .dimensionMismatch
  | _ => .error .unexpectedType

/-- The source's optional-conversion pattern: an absent parameter yields an
absent field, a present parameter yields `Some` of its conversion, with the
conversion error propagated (`?`). -/
def convOpt {α : Type} (f : Parameter → Except C3dParseError α) :
    Option Parameter → Except C3dParseError (Option α)
  | none => .ok none
  | some p => (f p).map some

/-- The `Seg` typed view of `src/seg.rs`: the six documented SEG
parameters, each optional. -/
structure Seg where
  marker_diameter : Option F32
  data_limits : Option Grid
  acc_factor : Option F32
  noise_factor : Option F32
  residual_error_factor : Option F32
  intersection_limit : Option F32
deriving DecidableEq

/-- The empty `Seg` view (`Seg::default`). -/
def Seg.default : Seg := ⟨none, none, none, none, none, none⟩

/-- Rust's `Option<f32>` equality: both absent, or both present and
IEEE-754 equal. -/
def optF32Eq : Option F32 → Option F32 → Bool
  | none, none => true
  | some x, some y => f32Eq x y
  | _, _ => false

/-- The `PartialEq` implementation of `Seg` from `src/seg.rs`: the
`data_limits` grids are compared by their flattened contents, every other
field by `Option<f32>` equality. -/
def Seg.eq (a b : Seg) : Bool :=
  let dataLimitsEq :=
    match a.data_limits with
    | some dl =>
      match b.data_limits with
      | some odl => listF32Eq dl.flatten odl.flatten
      | none => false
    | none =>
      match b.data_limits with
      | some _ => false
      | none => true
  optF32Eq a.marker_diameter b.marker_diameter && dataLimitsEq &&
    optF32Eq a.acc_factor b.acc_factor && optF32Eq a.noise_factor b.noise_factor &&
    optF32Eq a.residual_error_factor b.residual_error_factor &&
    optF32Eq a.intersection_limit b.intersection_limit


/-- `Seg::from_parameters` from `src/seg.rs`: remove each of the six
documented SEG parameters from the store in declared order, converting each
present one to its typed form, any conversion failure aborting the whole
construction.  The store is threaded explicitly, modelling the `&mut`
receiver: removals performed before a failure persist. -/
def Seg.fromParameters (ps : Parameters) : Except C3dParseError Seg × Parameters :=
  let r0 := ps.remove "SEG" "MARKER_DIAMETER"
  match convOpt tryF32 r0.1 with
  | .error e => (.error e, r0.2)
  | .ok marker_diameter =>
    let r1 := r0.2.remove "SEG" "DATA_LIMITS"
    match convOpt tryFloatGrid r1.1 with
    | .error e => (.error e, r1.2)
    | .ok data_limits =>
      let r2 := r1.2.remove "SEG" "ACC_FACTOR"
      match convOpt tryF32 r2.1 with
      | .error e => (.error e, r2.2)
      | .ok acc_factor =>
        let r3 := r2.2.remove "SEG" "NOISE_FACTOR"
        match convOpt tryF32 r3.1 with
        | .error e => (.error e, r3.2)
        | .ok noise_factor =>
          let r4 := r3.2.remove "SEG" "RESIDUAL_ERROR_FACTOR"
          match convOpt tryF32 r4.1 with
          | .error e => (.error e, r4.2)
          | .ok residual_error_factor =>
            let r5 := r4.2.remove "SEG" "INTERSECTION_LIMIT"
            match convOpt tryF32 r5.1 with
            | .error e => (.error e, r5.2)
            | .ok intersection_limit =>
              (.ok ⟨marker_diameter, data_limits, acc_factor, noise_factor,
                residual_error_factor, intersection_limit⟩, r5.2)

/-- Modelled from the spec: `Parameter::write(codec, name, group_id, locked)`
— one self-contained parameter record: the signed name-length byte (negated
via two's complement when locked), the name bytes, a two-byte offset to the
next record, the group-id byte, the data-type tag, the dimension count,
one byte per extent, the codec-encoded flattened data, and the description
length and bytes.  The offset is the length of the record remainder counted
from the start of the offset field. -/
def Parameter.write (p : Parameter) (proc : Processor) (name : String) (groupId : Nat)
    (locked : Bool) : List Nat :=
  let nameBytes := name.toList.map Char.toNat
  let lenByte := if locked then (256 - nameBytes.length % 256) % 256 else nameBytes.length % 256
  let dataBytes := encodeData proc p.data
  let descBytes := p.description.toList.map Char.toNat
  let tail := groupId % 256 :: p.data.typeTag :: p.dimensions.length % 256 ::
    (p.dimensions.map (· % 256) ++ dataBytes ++ descBytes.length % 256 :: descBytes)
  lenByte :: (nameBytes ++ (encodeU16 proc (tail.length + 2) ++ tail))

/-- The (source-faithful) result of `Seg::write`: either the produced bytes
or — modelling the Rust `group_names_to_ids["SEG"]` indexing of a missing
key — a panic (abnormal termination).  The error constructor mirrors the
`Result<Vec<u8>, C3dWriteError>` signature; the modelled record writer has
no failure case of its own (per the spec, `Parameter::write` raises no
errors at its layer), so `err` is never produced by `Seg.write`. -/
inductive WriteResult where
  | ok (bytes : List Nat)
  | err (e : C3dWriteError)
  | panicked
deriving DecidableEq

/-- One `if field.is_some()` block of `Seg::write`: on a present field,
resolve the SEG group id (panicking like `HashMap` indexing when the key is
absent) and append the field's parameter record. -/
def writeOpt (proc : Processor) (ids : List (String × Nat)) (name : String)
    (p : Option Parameter) (acc : WriteResult) : WriteResult :=
  match acc with
  | .panicked => .panicked
  | .err e => .err e
  | .ok bytes =>
    match p with
    | none => .ok bytes
    | some param =>
      match ids.lookup "SEG" with
      | none => .panicked
      | some gid => .ok (bytes ++ param.write proc name gid false)

/-- `Seg::write` from `src/seg.rs`: for each present field in declared
order, build the corresponding `Parameter` (`Parameter::float` or
`Parameter::float_grid`) and append its record, stamped with the group id
looked up under `"SEG"` and with the locked flag false; absent fields emit
nothing. -/
def Seg.write (s : Seg) (proc : Processor) (ids : List (String × Nat)) : WriteResult :=
  writeOpt proc ids "INTERSECTION_LIMIT" (s.intersection_limit.map Parameter.float)
    (writeOpt proc ids "RESIDUAL_ERROR_FACTOR" (s.residual_error_factor.map Parameter.float)
      (writeOpt proc ids "NOISE_FACTOR" (s.noise_factor.map Parameter.float)
        (writeOpt proc ids "ACC_FACTOR" (s.acc_factor.map Parameter.float)
          (writeOpt proc ids "DATA_LIMITS" (s.data_limits.map Parameter.floatGrid)
            (writeOpt proc ids "MARKER_DIAMETER" (s.marker_diameter.map Parameter.float)
              (.ok []))))))

/-- Read one byte off the front of a byte sequence. -/
def readByte : List Nat → Option (Nat × List Nat)
  | [] => none
  | b :: rest => some (b, rest)

/-- Split exactly `n` bytes off the front of a byte sequence, failing when
fewer remain. -/
def takeExact (n : Nat) (l : List Nat) : Option (List Nat × List Nat) :=
  if n ≤ l.length then some (l.take n, l.drop n) else none

/-- Read `n` codec-encoded floats off the front of a byte sequence. -/
def readF32s (proc : Processor) : Nat → List Nat → Option (List F32 × List Nat)
  | 0, l => some ([], l)
  | n + 1, a :: b :: c :: d :: rest =>
    match readF32s proc n rest with
    | none => none
    | some (vs, r) => some (decodeF32 proc a b c d :: vs, r)
  | _ + 1, _ => none

/-- The signed 16-bit integer denoted by two bytes under the selected
vendor layout. -/
def decodeI16 (proc : Processor) (a b : Nat) : Int :=
  let u : Nat :=
    match proc with
    | .intel => a + 256 * b
    | .dec => a + 256 * b
    | .sgiMips => b + 256 * a
  if u % 65536 < 32768 then (u % 65536 : Nat) else (u % 65536 : Nat) - 65536

/-- Read `n` codec-encoded signed 16-bit integers off the front of a byte
sequence. -/
def readI16s (proc : Processor) : Nat → List Nat → Option (List Int × List Nat)
  | 0, l => some ([], l)
  | n + 1, a :: b :: rest =>
    match readI16s proc n rest with
    | none => none
    | some (vs, r) => some (decodeI16 proc a b :: vs, r)
  | _ + 1, _ => none

/-- One decoded parameter record: the parameter name, the owning group id,
and the parameter value (whose locked flag comes from the sign of the
record's name-length byte). -/
structure Rec where
  name : String
  groupId : Nat
  param : Parameter
deriving DecidableEq

/-- Modelled from the spec: decode one parameter record off the front of a
byte sequence, the inverse of `Parameter.write`: signed name-length byte,
name, two offset bytes (consumed, not interpreted), group-id byte (a
group-definition record, marked by a negated id, is not a parameter
record), type tag, dimension count and extents, the codec-decoded data
(element count the product of the extents), and the description. -/
def parseRecord (proc : Processor) (l : List Nat) : Option (Rec × List Nat) :=
  match readByte l with
  | none => none
  | some (b0, r) =>
    let locked := 128 ≤ b0
    let nameLen := if 128 ≤ b0 then 256 - b0 else b0
    if nameLen = 0 then none else
    match takeExact nameLen r with
    | none => none
    | some (nameBytes, r) =>
      match takeExact 2 r with
      | none => none
      | some (_, r) =>
        match readByte r with
        | none => none
        | some (gidByte, r) =>
          if 128 ≤ gidByte then none else
          match readByte r with
          | none => none
          | some (tagByte, r) =>
            match readByte r with
            | none => none
            | some (ndimsByte, r) =>
              match takeExact ndimsByte r with
              | none => none
              | some (dims, r) =>
                let count := dims.prod
                let dataRead : Option (ParameterData × List Nat) :=
                  if tagByte = 255 then
                    match takeExact count r with
                    | none => none
                    | some (cs, r) => some (.char cs, r)
                  else if tagByte = 1 then
                    match takeExact count r with
                    | none => none
                    | some (bs, r) => some (.int8 (bs.map byteToI8), r)
                  else if tagByte = 2 then
                    match readI16s proc count r with
                    | none => none
                    | some (vs, r) => some (.int16 vs, r)
                  else if tagByte = 4 then
                    match readF32s proc count r with
                    | none => none
                    | some (vs, r) => some (.float vs, r)
                  else none
                match dataRead with
                | none => none
                | some (data, r) =>
                  match readByte r with
                  | none => none
                  | some (descLen, r) =>
                    match takeExact descLen r with
                    | none => none
                    | some (descBytes, r) =>
                      some (⟨(nameBytes.map Char.ofNat).asString, gidByte,
                        ⟨dims, data, locked, (descBytes.map Char.ofNat).asString⟩⟩, r)

/-- Fuel-indexed iteration of `parseRecord`; the fuel bounds the number of
records, each of which consumes at least one byte. -/
def parseAllAux (proc : Processor) : Nat → List Nat → Option (List Rec)
  | _, [] => some []
  | 0, _ :: _ => none
  | fuel + 1, l =>
    match parseRecord proc l with
    | none => none
    | some (r, rest) =>
      match parseAllAux proc fuel rest with
      | none => none
      | some rs => some (r :: rs)

/-- Modelled from the spec: decode a byte sequence as a concatenation of
parameter records, failing on any malformed or trailing content. -/
def parseAll (proc : Processor) (l : List Nat) : Option (List Rec) :=
  parseAllAux proc l.length l

/-- Rebuild a parameter store holding exactly the decoded records of the
SEG group, in decoded order, under the given group id: the store the
surrounding reader would produce from the re-serialized SEG section. -/
def storeOfRecords (gid : Nat) (recs : List Rec) : Parameters :=
  ⟨[⟨gid, "SEG", "", false, recs.map fun r => (r.name, r.param)⟩]⟩

/-- A record is serializable-and-recoverable when its name is nonempty and
shorter than the sign bound, its group id fits the positive id byte, its
extents each fit one byte, its float data matches the product of the
extents, its description fits one length byte, and it is unlocked — all
true of every record `Seg::write` emits. -/
def wfRec (r : Rec) : Prop :=
  0 < r.name.length ∧ r.name.length < 128 ∧ r.groupId < 128 ∧
    r.param.dimensions.length < 256 ∧ (∀ d ∈ r.param.dimensions, d < 256) ∧
    r.param.description.length < 256 ∧
    (∃ vs, r.param.data = .float vs ∧ vs.length = r.param.dimensions.prod) ∧
    r.param.locked = false

/-- The bytes of one decoded record re-serialized: the record-level view of
what `Seg::write` concatenates. -/
def encodeRec (proc : Processor) (r : Rec) : List Nat :=
  r.param.write proc r.name r.groupId r.param.locked

/-- The six documented SEG parameter names, in the declared field order of
the `Seg` structure. -/
def segNames : List String :=
  ["MARKER_DIAMETER", "DATA_LIMITS", "ACC_FACTOR", "NOISE_FACTOR",
    "RESIDUAL_ERROR_FACTOR", "INTERSECTION_LIMIT"]

/-- The documented SEG parameter name of the field at a given position of
the declared field order. -/
def segName : Fin 6 → String
  | 0 => "MARKER_DIAMETER"
  | 1 => "DATA_LIMITS"
  | 2 => "ACC_FACTOR"
  | 3 => "NOISE_FACTOR"
  | 4 => "RESIDUAL_ERROR_FACTOR"
  | 5 => "INTERSECTION_LIMIT"

/-- The typed conversion `Seg::from_parameters` applies to the field at a
given position: the documented 3×2 float grid for `DATA_LIMITS`, the float
scalar for every other field. -/
def segConv (k : Fin 6) (p : Parameter) : Except C3dParseError (F32 ⊕ Grid) :=
  if k = 1 then (tryFloatGrid p).map Sum.inr else (tryF32 p).map Sum.inl

/-- The field at a given position of a `Seg` view. -/
def segField (v : Seg) : Fin 6 → Option (F32 ⊕ Grid)
  | 0 => v.marker_diameter.map Sum.inl
  | 1 => v.data_limits.map Sum.inr
  | 2 => v.acc_factor.map Sum.inl
  | 3 => v.noise_factor.map Sum.inl
  | 4 => v.residual_error_factor.map Sum.inl
  | 5 => v.intersection_limit.map Sum.inl

/-- The record `Seg::write` builds for one present field. -/
def recsOf (n : String) (gid : Nat) (p : Option Parameter) : List Rec :=
  (p.map fun param => Rec.mk n gid param).toList

/-- The sequence of parameter records `Seg::write` emits: one per present
field, in declared field order, each stamped with the SEG group id. -/
def segRecords (v : Seg) (gid : Nat) : List Rec :=
  recsOf "MARKER_DIAMETER" gid (v.marker_diameter.map Parameter.float) ++
    recsOf "DATA_LIMITS" gid (v.data_limits.map Parameter.floatGrid) ++
    recsOf "ACC_FACTOR" gid (v.acc_factor.map Parameter.float) ++
    recsOf "NOISE_FACTOR" gid (v.noise_factor.map Parameter.float) ++
    recsOf "RESIDUAL_ERROR_FACTOR" gid (v.residual_error_factor.map Parameter.float) ++
    recsOf "INTERSECTION_LIMIT" gid (v.intersection_limit.map Parameter.float)

/-- A `Seg` view whose grid field (when present) has the documented 3×2
shape with six elements — true of every view `Seg::from_parameters`
builds. -/
def wfSeg (v : Seg) : Prop :=
  ∀ g ∈ v.data_limits, g.rows = 3 ∧ g.cols = 2 ∧ g.data.length = 6

/-- One group's parameter list built from named optional entries, in
order: present entries contribute one binding, absent entries none. -/
def chunksOf : List (String × Option Parameter) → List (String × Parameter)
  | [] => []
  | (n, o) :: rest => (o.map fun p => (n, p)).toList ++ chunksOf rest

/-- A write result is an error value. -/
def WriteResult.isErr : WriteResult → Prop
  | .err _ => True
  | _ => False

/-- Field agreement for an optional float field: absent in both views, or
present in both with IEEE-754-equal values. -/
def optFieldAgrees (x y : Option F32) : Prop :=
  (x = none ∧ y = none) ∨ ∃ u w, x = some u ∧ y = some w ∧ f32Eq u w = true

/-- Field agreement for the optional grid field: absent in both views, or
present in both with element-wise equal flattened contents, regardless of
the grids' declared dimensions. -/
def gridFieldAgrees (x y : Option Grid) : Prop :=
  (x = none ∧ y = none) ∨
    ∃ g h, x = some g ∧ y = some h ∧ listF32Eq g.flatten h.flatten = true

instance {ε α : Type} [DecidableEq ε] [DecidableEq α] : DecidableEq (Except ε α) :=
  fun a b =>
    match a, b with
    | .error e1, .error e2 =>
      if h : e1 = e2 then .isTrue (by rw [h]) else .isFalse (by simp [h])
    | .ok v1, .ok v2 =>
      if h : v1 = v2 then .isTrue (by rw [h]) else .isFalse (by simp [h])
    | .error _, .ok _ => .isFalse (by simp)
    | .ok _, .error _ => .isFalse (by simp)

/-- The bit pattern of the float `14.0f32`. -/
def x14 : F32 := ⟨1096810496, by norm_num⟩

/-- A one-field concrete store: a SEG group (id 3) holding only a scalar
float `MARKER_DIAMETER` parameter. -/
def wStore1 : Parameters :=
  ⟨[⟨3, "SEG", "", false, [("MARKER_DIAMETER", ⟨[], .float [x14], false, ""⟩)]⟩]⟩

/-- A concrete store whose SEG `MARKER_DIAMETER` entry holds text instead
of a float scalar. -/
def badTypeStore : Parameters :=
  ⟨[⟨3, "SEG", "", false, [("MARKER_DIAMETER", ⟨[3], .char [65, 66, 67], false, ""⟩)]⟩]⟩

/-- The zero float bit pattern. -/
def x0 : F32 := ⟨0, by norm_num⟩

/-- A store holding a SEG `DATA_LIMITS` float parameter with only 4
elements (extent 4 instead of the documented 3×2), together with a
text-typed `MARKER_DIAMETER` parameter. -/
def maskedBadStore : Parameters :=
  ⟨[⟨3, "SEG", "", false,
    [("MARKER_DIAMETER", ⟨[3], .char [65, 66, 67], false, ""⟩),
      ("DATA_LIMITS", ⟨[4], .float [x0, x0, x0, x0], false, ""⟩)]⟩]⟩

/-- A store holding only the malformed 4-element SEG `DATA_LIMITS`
parameter. -/
def badGridStore : Parameters :=
  ⟨[⟨3, "SEG", "", false,
    [("DATA_LIMITS", ⟨[4], .float [x0, x0, x0, x0], false, ""⟩)]⟩]⟩

/-- A store with a documented SEG field, an undocumented custom SEG
parameter, and a second group. -/
def passthroughStore : Parameters :=
  ⟨[⟨1, "SEG", "", false,
    [("MARKER_DIAMETER", ⟨[], .float [x14], false, ""⟩),
      ("CUSTOM_FIELD", ⟨[2], .int8 [1, 2], false, "custom"⟩)]⟩,
    ⟨2, "POINT", "", false, [("SCALE", ⟨[], .float [x0], false, ""⟩)]⟩]⟩

/-- A store with a convertible `MARKER_DIAMETER` followed by a malformed
`DATA_LIMITS`: extraction fails at the second field, after the first has
been removed. -/
def partialFailStore : Parameters :=
  ⟨[⟨3, "SEG", "", false,
    [("MARKER_DIAMETER", ⟨[], .float [x14], false, ""⟩),
      ("DATA_LIMITS", ⟨[4], .float [x0, x0, x0, x0], false, ""⟩)]⟩]⟩

theorem F32.ext {a b : F32} (h : a.val = b.val) : a = b := Fin.ext h

theorem F32.val_lt (x : F32) : x.val < 2 ^ 32 := Fin.isLt x

theorem f32OfLeBytes_val (b0 b1 b2 b3 : Nat) :
    (f32OfLeBytes b0 b1 b2 b3).val = (b0 + 256 * b1 + 65536 * b2 + 16777216 * b3) % 2 ^ 32 := rfl

theorem f32LeBytes_roundtrip (x : F32) :
    f32OfLeBytes (x.val % 256) (x.val / 256 % 256) (x.val / 65536 % 256)
      (x.val / 16777216 % 256) = x := by
  apply F32.ext
  rw [f32OfLeBytes_val]
  have hx : x.val < 2 ^ 32 := x.val_lt
  omega

theorem encodeF32_intel (x : F32) :
    encodeF32 .intel x = [x.val % 256, x.val / 256 % 256, x.val / 65536 % 256,
      x.val / 16777216 % 256] := rfl

theorem encodeF32_dec (x : F32) :
    encodeF32 .dec x = [x.val / 65536 % 256, x.val / 16777216 % 256, x.val % 256,
      x.val / 256 % 256] := rfl

theorem encodeF32_sgiMips (x : F32) :
    encodeF32 .sgiMips x = [x.val / 16777216 % 256, x.val / 65536 % 256, x.val / 256 % 256,
      x.val % 256] := rfl

theorem encodeF32_length (proc : Processor) (x : F32) : (encodeF32 proc x).length = 4 := by
  cases proc <;> rfl

/-- Decoding the four bytes the codec produced recovers the bit pattern. -/
theorem decodeF32_encodeF32 (proc : Processor) (x : F32) :
    ∃ a b c d, encodeF32 proc x = [a, b, c, d] ∧ decodeF32 proc a b c d = x := by
  cases proc
  · exact ⟨_, _, _, _, encodeF32_intel x, f32LeBytes_roundtrip x⟩
  · exact ⟨_, _, _, _, encodeF32_dec x, f32LeBytes_roundtrip x⟩
  · exact ⟨_, _, _, _, encodeF32_sgiMips x, f32LeBytes_roundtrip x⟩

/-- Reading back a sequence of codec-encoded floats recovers the sequence
and leaves the rest untouched. -/
theorem readF32s_flatMap (proc : Processor) (vs : List F32) (rest : List Nat) :
    readF32s proc vs.length (vs.flatMap (encodeF32 proc) ++ rest) = some (vs, rest) := by
  induction vs with
  | nil => rfl
  | cons v vs ih =>
    obtain ⟨a, b, c, d, henc, hdec⟩ := decodeF32_encodeF32 proc v
    rw [List.length_cons, List.flatMap_cons, henc]
    simp only [List.append_eq, List.cons_append, List.nil_append, List.append_assoc, readF32s,
      ih, hdec]

theorem takeExact_append (n : Nat) (l rest : List Nat) (h : l.length = n) :
    takeExact n (l ++ rest) = some (l, rest) := by
  subst h
  unfold takeExact
  rw [if_pos (by simp), List.take_left, List.drop_left]

theorem mapMod256_eq (l : List Nat) (h : ∀ d ∈ l, d < 256) : l.map (· % 256) = l := by
  induction l with
  | nil => rfl
  | cons a l ih =>
    rw [List.map_cons, Nat.mod_eq_of_lt (h a (by simp)), ih fun d hd => h d (by simp [hd])]

theorem string_toList_length (s : String) : s.toList.length = s.length := rfl

theorem encodeU16_length (proc : Processor) (n : Nat) : (encodeU16 proc n).length = 2 := by
  cases proc <;> rfl

/-- The characters of a string survive a byte round trip. -/
theorem map_ofNat_toNat (l : List Char) : (l.map Char.toNat).map Char.ofNat = l := by
  induction l with
  | nil => rfl
  | cons c l ih => simp [Char.ofNat_toNat, ih]

theorem asString_map_ofNat_toNat (s : String) :
    ((s.toList.map Char.toNat).map Char.ofNat).asString = s := by
  rw [map_ofNat_toNat, String.asString_toList]

/-- Decoding the bytes of a well-formed serialized record recovers the
record and leaves the following bytes untouched. -/
theorem parseRecord_encodeRec (proc : Processor) (r : Rec) (rest : List Nat) (hwf : wfRec r) :
    parseRecord proc (encodeRec proc r ++ rest) = some (r, rest) := by
  obtain ⟨hn0, hn, hgid, hndims, hdims, hdesc, ⟨vs, hdata, hlen⟩, hlockf⟩ := hwf
  obtain ⟨name, gid, param⟩ := r
  obtain ⟨dims, pdata, plock, pdesc⟩ := param
  simp only at hn0 hn hgid hndims hdims hdesc hdata hlen hlockf
  subst hdata hlockf
  have hnb : (name.toList.map Char.toNat).length = name.length := by
    rw [List.length_map, string_toList_length]
  have hdb : (pdesc.toList.map Char.toNat).length = pdesc.length := by
    rw [List.length_map, string_toList_length]
  have h128 : ¬ (128 ≤ name.length) := by omega
  have h0 : ¬ (name.length = 0) := by omega
  have hgid2 : ¬ (128 ≤ gid) := by omega
  have t255 : (4 : Nat) ≠ 255 := by decide
  have t1 : (4 : Nat) ≠ 1 := by decide
  have t2 : (4 : Nat) ≠ 2 := by decide
  rw [encodeRec, Parameter.write]
  simp only [ParameterData.typeTag, encodeData]
  rw [if_neg (by simp), hnb,
    Nat.mod_eq_of_lt (show name.length < 256 by omega),
    Nat.mod_eq_of_lt (show gid < 256 by omega),
    Nat.mod_eq_of_lt (show dims.length < 256 from hndims),
    mapMod256_eq dims hdims, hdb,
    Nat.mod_eq_of_lt (show pdesc.length < 256 from hdesc)]
  have t4 : (4 : Nat) = 4 := rfl
  have hdec : decide (128 ≤ name.length) = false := decide_eq_false h128
  have hrf : ∀ Y, readF32s proc dims.prod (vs.flatMap (encodeF32 proc) ++ Y) = some (vs, Y) := by
    intro Y
    rw [← hlen]
    exact readF32s_flatMap proc vs Y
  simp only [parseRecord, readByte, List.cons_append, List.append_assoc, List.nil_append,
    if_neg h128, if_neg h0, if_neg hgid2, if_neg t255, if_neg t1, if_neg t2, if_pos t4, hdec,
    ite_true, takeExact_append, List.length_map, string_toList_length, encodeU16_length, hrf,
    asString_map_ofNat_toNat]

theorem encodeRec_ne_nil (proc : Processor) (r : Rec) : encodeRec proc r ≠ [] := by
  simp [encodeRec, Parameter.write]

theorem parseAllAux_flatMap (proc : Processor) (recs : List Rec)
    (hwf : ∀ r ∈ recs, wfRec r) :
    ∀ fuel, (recs.flatMap (encodeRec proc)).length ≤ fuel →
      parseAllAux proc fuel (recs.flatMap (encodeRec proc)) = some recs := by
  induction recs with
  | nil =>
    intro fuel _
    simp [parseAllAux]
  | cons r recs ih =>
    intro fuel hfuel
    rw [List.flatMap_cons] at hfuel ⊢
    obtain ⟨b, l', hcons⟩ := List.exists_cons_of_ne_nil (encodeRec_ne_nil proc r)
    have hlen : 1 + (recs.flatMap (encodeRec proc)).length ≤ fuel := by
      rw [hcons] at hfuel
      simp only [List.length_append, List.length_cons] at hfuel
      omega
    obtain ⟨f, rfl⟩ : ∃ f, fuel = f + 1 := ⟨fuel - 1, by omega⟩
    rw [hcons, List.cons_append, parseAllAux, ← List.cons_append, ← hcons,
      parseRecord_encodeRec proc r _ (hwf r (by simp))]
    simp only [ih (fun q hq => hwf q (by simp [hq])) f (by omega)]
    simp

/-- Decoding a concatenation of well-formed serialized records recovers the
record list. -/
theorem parseAll_flatMap (proc : Processor) (recs : List Rec) (hwf : ∀ r ∈ recs, wfRec r) :
    parseAll proc (recs.flatMap (encodeRec proc)) = some recs :=
  parseAllAux_flatMap proc recs hwf _ le_rfl

theorem eqCI_refl (a : String) : eqCI a a = true := by
  simp [eqCI]

theorem eqCI_eq_true_iff (a b : String) :
    eqCI a b = true ↔ a.data.map Char.toUpper = b.data.map Char.toUpper := by
  simp [eqCI]

theorem eqCI_symm (a b : String) : eqCI a b = eqCI b a := by
  simp only [eqCI]
  exact Bool.coe_iff_coe.mp (by rw [beq_iff_eq, beq_iff_eq, eq_comm])

theorem eqCI_trans {a b c : String} (h1 : eqCI a b = true) (h2 : eqCI b c = true) :
    eqCI a c = true := by
  rw [eqCI_eq_true_iff] at h1 h2 ⊢
  rw [h1, h2]

theorem eqCI_trans_ne {a b c : String} (h1 : eqCI a b = true) (h2 : eqCI a c = false) :
    eqCI b c = false := by
  rcases hbc : eqCI b c with _ | _
  · rfl
  · rw [eqCI_trans h1 hbc] at h2
    cases h2

theorem fst_removeParamFromList (l : List (String × Parameter)) (t : String) :
    (removeParamFromList l t).1 = lookupParam l t := by
  induction l with
  | nil => rfl
  | cons q rest ih =>
    obtain ⟨n, p⟩ := q
    rw [removeParamFromList, lookupParam]
    rcases h : eqCI n t with _ | _
    · simp only [Bool.false_eq_true, if_false, ih]
    · simp

theorem removeParamFromList_not_found (l : List (String × Parameter)) (t : String)
    (h : ∀ q ∈ l, eqCI q.1 t = false) : removeParamFromList l t = (none, l) := by
  induction l with
  | nil => rfl
  | cons q rest ih =>
    obtain ⟨n, p⟩ := q
    rw [removeParamFromList, if_neg (by rw [h (n, p) (by simp)]; simp),
      ih fun q hq => h q (by simp [hq])]

theorem lookupParam_eq_none_of_all (l : List (String × Parameter)) (t : String)
    (h : ∀ q ∈ l, eqCI q.1 t = false) : lookupParam l t = none := by
  induction l with
  | nil => rfl
  | cons q rest ih =>
    obtain ⟨n, p⟩ := q
    rw [lookupParam, if_neg (by rw [h (n, p) (by simp)]; simp)]
    exact ih fun q hq => h q (by simp [hq])

theorem lookupParam_removeParamFromList_ne (l : List (String × Parameter)) (t t' : String)
    (h : eqCI t t' = false) :
    lookupParam (removeParamFromList l t).2 t' = lookupParam l t' := by
  induction l with
  | nil => rfl
  | cons q rest ih =>
    obtain ⟨n, p⟩ := q
    rw [removeParamFromList]
    rcases hn : eqCI n t with _ | _
    · simp only [Bool.false_eq_true, if_false, lookupParam]
      rcases hn' : eqCI n t' with _ | _
      · simp only [Bool.false_eq_true, if_false, ih, lookupParam, hn']
      · simp [lookupParam, hn']
    · have hnt' : eqCI n t' = false := eqCI_trans_ne (by rw [eqCI_symm]; exact hn) h
      simp only [if_true, lookupParam, hnt']
      simp [lookupParam]

theorem sublist_removeParamFromList (l : List (String × Parameter)) (t : String) :
    (removeParamFromList l t).2.Sublist l := by
  induction l with
  | nil => simp [removeParamFromList]
  | cons q rest ih =>
    obtain ⟨n, p⟩ := q
    rw [removeParamFromList]
    rcases hn : eqCI n t with _ | _
    · simp only [Bool.false_eq_true, if_false]
      exact List.Sublist.cons₂ (n, p) ih
    · simp only [if_true]
      exact List.sublist_cons_self (n, p) rest

theorem wfParamList_removeParamFromList (l : List (String × Parameter)) (t : String)
    (h : wfParamList l) : wfParamList (removeParamFromList l t).2 :=
  h.sublist (sublist_removeParamFromList l t)

theorem lookupParam_removeParamFromList_self (l : List (String × Parameter)) (t : String)
    (h : wfParamList l) : lookupParam (removeParamFromList l t).2 t = none := by
  induction l with
  | nil => rfl
  | cons q rest ih =>
    obtain ⟨n, p⟩ := q
    rw [removeParamFromList]
    rcases hn : eqCI n t with _ | _
    · rw [if_neg (by simp)]
      show lookupParam ((n, p) :: (removeParamFromList rest t).2) t = none
      rw [lookupParam, if_neg (by rw [hn]; simp)]
      exact ih (List.pairwise_cons.mp h).2
    · simp only [if_true]
      refine lookupParam_eq_none_of_all rest t fun q hq => ?_
      have hq2 : eqCI n q.1 = false := (List.pairwise_cons.mp h).1 q hq
      rw [eqCI_symm]
      exact eqCI_trans_ne hn hq2

theorem fst_removeFromGroups (l : List ParamGroup) (gn pn : String) :
    (removeFromGroups l gn pn).1 =
      match findGroup l gn with
      | none => none
      | some g => lookupParam g.params pn := by
  induction l with
  | nil => rfl
  | cons g rest ih =>
    rw [removeFromGroups, findGroup]
    rcases hg : eqCI g.name gn with _ | _
    · simp only [Bool.false_eq_true, if_false]
      exact ih
    · simp only [if_true, fst_removeParamFromList]

/-- `Parameters::remove` returns exactly the parameter a non-destructive
lookup would find. -/
theorem fst_remove (ps : Parameters) (gn pn : String) :
    (ps.remove gn pn).1 = ps.getParam gn pn := by
  rw [Parameters.remove, Parameters.getParam]
  exact fst_removeFromGroups ps.groups gn pn

theorem findGroup_removeFromGroups_ne (l : List ParamGroup) (gn pn g' : String)
    (h : eqCI gn g' = false) :
    findGroup (removeFromGroups l gn pn).2 g' = findGroup l g' := by
  induction l with
  | nil => rfl
  | cons g rest ih =>
    rw [removeFromGroups]
    rcases hg : eqCI g.name gn with _ | _
    · simp only [Bool.false_eq_true, if_false]
      show findGroup (g :: (removeFromGroups rest gn pn).2) g' = _
      rw [findGroup, findGroup]
      rcases hg' : eqCI g.name g' with _ | _
      · simp only [Bool.false_eq_true, if_false, ih]
      · simp
    · simp only [if_true]
      have hgg' : eqCI g.name g' = false := eqCI_trans_ne (by rw [eqCI_symm]; exact hg) h
      rw [findGroup, findGroup, if_neg (by rw [hgg']; simp), if_neg (by rw [hgg']; simp)]

theorem findGroup_removeFromGroups_same (l : List ParamGroup) (gn pn g' : String)
    (h : eqCI gn g' = true) :
    findGroup (removeFromGroups l gn pn).2 g' =
      match findGroup l g' with
      | none => none
      | some g => some ⟨g.id, g.name, g.description, g.locked,
          (removeParamFromList g.params pn).2⟩ := by
  induction l with
  | nil => rfl
  | cons g rest ih =>
    rw [removeFromGroups]
    have hiff : eqCI g.name gn = eqCI g.name g' := by
      rcases hg : eqCI g.name gn with _ | _
      · rcases hg' : eqCI g.name g' with _ | _
        · rfl
        · rw [eqCI_symm] at h
          rw [eqCI_trans hg' h] at hg
          cases hg
      · rw [eqCI_trans hg h]
    rcases hg : eqCI g.name gn with _ | _
    · simp only [Bool.false_eq_true, if_false]
      show findGroup (g :: (removeFromGroups rest gn pn).2) g' = _
      rw [findGroup, findGroup, ← hiff, hg]
      simp only [Bool.false_eq_true, if_false, ih]
    · simp only [if_true]
      rw [findGroup, findGroup, ← hiff, hg]
      simp

/-- Frame property of extraction: removing the parameter `(gn, pn)` leaves
the lookup of any other `(g', n')` — different group, or different name —
unchanged. -/
theorem getParam_remove_frame (ps : Parameters) (gn pn g' n' : String)
    (h : eqCI gn g' = false ∨ eqCI pn n' = false) :
    ((ps.remove gn pn).2).getParam g' n' = ps.getParam g' n' := by
  rw [Parameters.remove, Parameters.getParam, Parameters.getParam]
  rcases hg : eqCI gn g' with _ | _
  · show (match findGroup (removeFromGroups ps.groups gn pn).2 g' with
      | none => none
      | some g => lookupParam g.params n') = _
    rw [findGroup_removeFromGroups_ne ps.groups gn pn g' hg]
  · have hn : eqCI pn n' = false := by
      rcases h with h | h
      · rw [hg] at h
        cases h
      · exact h
    show (match findGroup (removeFromGroups ps.groups gn pn).2 g' with
      | none => none
      | some g => lookupParam g.params n') = _
    rw [findGroup_removeFromGroups_same ps.groups gn pn g' hg]
    rcases findGroup ps.groups g' with _ | g
    · rfl
    · exact lookupParam_removeParamFromList_ne g.params pn n' hn

/-- Extraction never edits any group's id, name, description or locked
flag, and never deletes or reorders groups. -/
theorem skeleton_remove (ps : Parameters) (gn pn : String) :
    ((ps.remove gn pn).2).skeleton = ps.skeleton := by
  rw [Parameters.remove, Parameters.skeleton, Parameters.skeleton]
  show (removeFromGroups ps.groups gn pn).2.map _ = _
  induction ps.groups with
  | nil => rfl
  | cons g rest ih =>
    rw [removeFromGroups]
    rcases hg : eqCI g.name gn with _ | _
    · show (g :: (removeFromGroups rest gn pn).2).map _ = _
      rw [List.map_cons, List.map_cons, ih]
    · simp

theorem findGroup_mem (l : List ParamGroup) (gn : String) (g : ParamGroup)
    (h : findGroup l gn = some g) : g ∈ l := by
  induction l with
  | nil => cases h
  | cons g2 rest ih =>
    rw [findGroup] at h
    rcases hg2 : eqCI g2.name gn with _ | _
    · rw [hg2] at h
      simp only [Bool.false_eq_true, if_false] at h
      exact List.mem_cons_of_mem g2 (ih h)
    · rw [hg2] at h
      simp only [if_true, Option.some.injEq] at h
      subst h
      exact List.mem_cons_self g2 rest

/-- Under the store invariant, the removed parameter is gone: its own
lookup after extraction is absent. -/
theorem getParam_remove_self (ps : Parameters) (gn pn : String) (hwf : wfStore ps) :
    ((ps.remove gn pn).2).getParam gn pn = none := by
  rw [Parameters.remove, Parameters.getParam]
  show (match findGroup (removeFromGroups ps.groups gn pn).2 gn with
    | none => none
    | some g => lookupParam g.params pn) = none
  rw [findGroup_removeFromGroups_same ps.groups gn pn gn (eqCI_refl gn)]
  rcases hfind : findGroup ps.groups gn with _ | g
  · rfl
  · exact lookupParam_removeParamFromList_self g.params pn
      (hwf.2 g (findGroup_mem ps.groups gn g hfind))

theorem wfStore_remove (ps : Parameters) (gn pn : String) (hwf : wfStore ps) :
    wfStore ((ps.remove gn pn).2) := by
  rw [Parameters.remove]
  constructor
  · show ((removeFromGroups ps.groups gn pn).2).Pairwise _
    have hsk : (removeFromGroups ps.groups gn pn).2.map (fun g => g.name) =
        ps.groups.map (fun g => g.name) := by
      induction ps.groups with
      | nil => rfl
      | cons g rest ih =>
        rw [removeFromGroups]
        rcases hg : eqCI g.name gn with _ | _
        · show (g :: (removeFromGroups rest gn pn).2).map _ = _
          rw [List.map_cons, List.map_cons, ih]
        · simp
    have h1 : (ps.groups.map (fun g => g.name)).Pairwise (fun a b => eqCI a b = false) :=
      List.pairwise_map.mpr hwf.1
    rw [← hsk] at h1
    exact (List.pairwise_map.mp h1).imp (fun h => h)
  · intro g hg
    show wfParamList g.params
    have : ∀ l : List ParamGroup, (∀ g2 ∈ l, wfParamList g2.params) →
        ∀ g2 ∈ (removeFromGroups l gn pn).2, wfParamList g2.params := by
      intro l
      induction l with
      | nil =>
        intro _ g2 hg2
        cases hg2
      | cons g3 rest ih =>
        intro hl g2 hg2
        rw [removeFromGroups] at hg2
        rcases hg3 : eqCI g3.name gn with _ | _
        · rw [hg3] at hg2
          simp only [Bool.false_eq_true, if_false] at hg2
          rcases List.mem_cons.mp hg2 with h | h
          · subst h
            exact hl g2 (by simp)
          · exact ih (fun q hq => hl q (by simp [hq])) g2 h
        · rw [hg3] at hg2
          simp only [if_true] at hg2
          rcases List.mem_cons.mp hg2 with h | h
          · subst h
            exact wfParamList_removeParamFromList g3.params pn (hl g3 (by simp))
          · exact hl g2 (by simp [h])
    exact this ps.groups hwf.2 g hg

theorem segNames_pairwise : ∀ j k : Fin 6, j ≠ k → eqCI (segName j) (segName k) = false := by
  decide

theorem getParam_removeSeg_ne (ps : Parameters) (n n' : String) (h : eqCI n n' = false) :
    ((ps.remove "SEG" n).2).getParam "SEG" n' = ps.getParam "SEG" n' :=
  getParam_remove_frame ps "SEG" n "SEG" n' (Or.inr h)

/-- Execution characterization of a successful `Seg::from_parameters`:
each field of the returned view is the optional typed conversion of the
parameter stored in the original store under the SEG group and that
field's documented name. -/
theorem fromParameters_ok_spec (ps : Parameters) (v : Seg) (ps' : Parameters)
    (h : Seg.fromParameters ps = (.ok v, ps')) :
    convOpt tryF32 (ps.getParam "SEG" "MARKER_DIAMETER") = .ok v.marker_diameter ∧
    convOpt tryFloatGrid (ps.getParam "SEG" "DATA_LIMITS") = .ok v.data_limits ∧
    convOpt tryF32 (ps.getParam "SEG" "ACC_FACTOR") = .ok v.acc_factor ∧
    convOpt tryF32 (ps.getParam "SEG" "NOISE_FACTOR") = .ok v.noise_factor ∧
    convOpt tryF32 (ps.getParam "SEG" "RESIDUAL_ERROR_FACTOR") = .ok v.residual_error_factor ∧
    convOpt tryF32 (ps.getParam "SEG" "INTERSECTION_LIMIT") = .ok v.intersection_limit := by
  unfold Seg.fromParameters at h
  dsimp only at h
  split at h
  · simp at h
  next md heq0 =>
  split at h
  · simp at h
  next dl heq1 =>
  split at h
  · simp at h
  next af heq2 =>
  split at h
  · simp at h
  next nf heq3 =>
  split at h
  · simp at h
  next ref heq4 =>
  split at h
  · simp at h
  next il heq5 =>
  rw [Prod.mk.injEq] at h
  obtain ⟨hv, hps⟩ := h
  rw [Except.ok.injEq] at hv
  subst hv
  rw [fst_remove] at heq0
  rw [fst_remove, getParam_removeSeg_ne _ "MARKER_DIAMETER" "DATA_LIMITS" (by decide)] at heq1
  rw [fst_remove, getParam_removeSeg_ne _ "DATA_LIMITS" "ACC_FACTOR" (by decide), getParam_removeSeg_ne _ "MARKER_DIAMETER" "ACC_FACTOR" (by decide)] at heq2
  rw [fst_remove, getParam_removeSeg_ne _ "ACC_FACTOR" "NOISE_FACTOR" (by decide), getParam_removeSeg_ne _ "DATA_LIMITS" "NOISE_FACTOR" (by decide), getParam_removeSeg_ne _ "MARKER_DIAMETER" "NOISE_FACTOR" (by decide)] at heq3
  rw [fst_remove, getParam_removeSeg_ne _ "NOISE_FACTOR" "RESIDUAL_ERROR_FACTOR" (by decide), getParam_removeSeg_ne _ "ACC_FACTOR" "RESIDUAL_ERROR_FACTOR" (by decide), getParam_removeSeg_ne _ "DATA_LIMITS" "RESIDUAL_ERROR_FACTOR" (by decide), getParam_removeSeg_ne _ "MARKER_DIAMETER" "RESIDUAL_ERROR_FACTOR" (by decide)] at heq4
  rw [fst_remove, getParam_removeSeg_ne _ "RESIDUAL_ERROR_FACTOR" "INTERSECTION_LIMIT" (by decide), getParam_removeSeg_ne _ "NOISE_FACTOR" "INTERSECTION_LIMIT" (by decide), getParam_removeSeg_ne _ "ACC_FACTOR" "INTERSECTION_LIMIT" (by decide), getParam_removeSeg_ne _ "DATA_LIMITS" "INTERSECTION_LIMIT" (by decide), getParam_removeSeg_ne _ "MARKER_DIAMETER" "INTERSECTION_LIMIT" (by decide)] at heq5
  exact ⟨heq0, heq1, heq2, heq3, heq4, heq5⟩

theorem convOpt_error {α : Type} (f : Parameter → Except C3dParseError α)
    (o : Option Parameter) (e : C3dParseError) (h : convOpt f o = .error e) :
    ∃ p, o = some p ∧ f p = .error e := by
  cases o with
  | none => cases h
  | some p =>
    refine ⟨p, rfl, ?_⟩
    rw [convOpt] at h
    cases hf : f p with
    | error e2 =>
      rw [hf] at h
      cases h
      rfl
    | ok a =>
      rw [hf] at h
      cases h

/-- On a successful `Seg::from_parameters` over a well-formed store, every
one of the six documented SEG entries has been removed from the residual
store. -/
theorem fromParameters_ok_removed (ps : Parameters) (v : Seg) (ps' : Parameters)
    (hwf : wfStore ps) (h : Seg.fromParameters ps = (.ok v, ps')) :
    ∀ j : Fin 6, ps'.getParam "SEG" (segName j) = none := by
  unfold Seg.fromParameters at h
  dsimp only at h
  split at h
  · simp at h
  next md heq0 =>
  split at h
  · simp at h
  next dl heq1 =>
  split at h
  · simp at h
  next af heq2 =>
  split at h
  · simp at h
  next nf heq3 =>
  split at h
  · simp at h
  next ref heq4 =>
  split at h
  · simp at h
  next il heq5 =>
  rw [Prod.mk.injEq] at h
  obtain ⟨hv, hps⟩ := h
  subst hps
  have hw0 : wfStore ps := hwf
  have hw1 : wfStore ((ps.remove "SEG" "MARKER_DIAMETER").2) := wfStore_remove _ _ _ hw0
  have hw2 : wfStore (((ps.remove "SEG" "MARKER_DIAMETER").2.remove "SEG" "DATA_LIMITS").2) := wfStore_remove _ _ _ hw1
  have hw3 : wfStore ((((ps.remove "SEG" "MARKER_DIAMETER").2.remove "SEG" "DATA_LIMITS").2.remove "SEG" "ACC_FACTOR").2) := wfStore_remove _ _ _ hw2
  have hw4 : wfStore (((((ps.remove "SEG" "MARKER_DIAMETER").2.remove "SEG" "DATA_LIMITS").2.remove "SEG" "ACC_FACTOR").2.remove "SEG" "NOISE_FACTOR").2) := wfStore_remove _ _ _ hw3
  have hw5 : wfStore ((((((ps.remove "SEG" "MARKER_DIAMETER").2.remove "SEG" "DATA_LIMITS").2.remove "SEG" "ACC_FACTOR").2.remove "SEG" "NOISE_FACTOR").2.remove "SEG" "RESIDUAL_ERROR_FACTOR").2) := wfStore_remove _ _ _ hw4
  have R0 : (((((((ps.remove "SEG" "MARKER_DIAMETER").2.remove "SEG" "DATA_LIMITS").2.remove "SEG" "ACC_FACTOR").2.remove "SEG" "NOISE_FACTOR").2.remove "SEG" "RESIDUAL_ERROR_FACTOR").2.remove "SEG" "INTERSECTION_LIMIT").2).getParam "SEG" "MARKER_DIAMETER" = none := by
    rw [getParam_removeSeg_ne _ "INTERSECTION_LIMIT" "MARKER_DIAMETER" (by decide), getParam_removeSeg_ne _ "RESIDUAL_ERROR_FACTOR" "MARKER_DIAMETER" (by decide), getParam_removeSeg_ne _ "NOISE_FACTOR" "MARKER_DIAMETER" (by decide), getParam_removeSeg_ne _ "ACC_FACTOR" "MARKER_DIAMETER" (by decide), getParam_removeSeg_ne _ "DATA_LIMITS" "MARKER_DIAMETER" (by decide)]
    exact getParam_remove_self (ps) "SEG" "MARKER_DIAMETER" hw0
  have R1 : (((((((ps.remove "SEG" "MARKER_DIAMETER").2.remove "SEG" "DATA_LIMITS").2.remove "SEG" "ACC_FACTOR").2.remove "SEG" "NOISE_FACTOR").2.remove "SEG" "RESIDUAL_ERROR_FACTOR").2.remove "SEG" "INTERSECTION_LIMIT").2).getParam "SEG" "DATA_LIMITS" = none := by
    rw [getParam_removeSeg_ne _ "INTERSECTION_LIMIT" "DATA_LIMITS" (by decide), getParam_removeSeg_ne _ "RESIDUAL_ERROR_FACTOR" "DATA_LIMITS" (by decide), getParam_removeSeg_ne _ "NOISE_FACTOR" "DATA_LIMITS" (by decide), getParam_removeSeg_ne _ "ACC_FACTOR" "DATA_LIMITS" (by decide)]
    exact getParam_remove_self ((ps.remove "SEG" "MARKER_DIAMETER").2) "SEG" "DATA_LIMITS" hw1
  have R2 : (((((((ps.remove "SEG" "MARKER_DIAMETER").2.remove "SEG" "DATA_LIMITS").2.remove "SEG" "ACC_FACTOR").2.remove "SEG" "NOISE_FACTOR").2.remove "SEG" "RESIDUAL_ERROR_FACTOR").2.remove "SEG" "INTERSECTION_LIMIT").2).getParam "SEG" "ACC_FACTOR" = none := by
    rw [getParam_removeSeg_ne _ "INTERSECTION_LIMIT" "ACC_FACTOR" (by decide), getParam_removeSeg_ne _ "RESIDUAL_ERROR_FACTOR" "ACC_FACTOR" (by decide), getParam_removeSeg_ne _ "NOISE_FACTOR" "ACC_FACTOR" (by decide)]
    exact getParam_remove_self (((ps.remove "SEG" "MARKER_DIAMETER").2.remove "SEG" "DATA_LIMITS").2) "SEG" "ACC_FACTOR" hw2
  have R3 : (((((((ps.remove "SEG" "MARKER_DIAMETER").2.remove "SEG" "DATA_LIMITS").2.remove "SEG" "ACC_FACTOR").2.remove "SEG" "NOISE_FACTOR").2.remove "SEG" "RESIDUAL_ERROR_FACTOR").2.remove "SEG" "INTERSECTION_LIMIT").2).getParam "SEG" "NOISE_FACTOR" = none := by
    rw [getParam_removeSeg_ne _ "INTERSECTION_LIMIT" "NOISE_FACTOR" (by decide), getParam_removeSeg_ne _ "RESIDUAL_ERROR_FACTOR" "NOISE_FACTOR" (by decide)]
    exact getParam_remove_self ((((ps.remove "SEG" "MARKER_DIAMETER").2.remove "SEG" "DATA_LIMITS").2.remove "SEG" "ACC_FACTOR").2) "SEG" "NOISE_FACTOR" hw3
  have R4 : (((((((ps.remove "SEG" "MARKER_DIAMETER").2.remove "SEG" "DATA_LIMITS").2.remove "SEG" "ACC_FACTOR").2.remove "SEG" "NOISE_FACTOR").2.remove "SEG" "RESIDUAL_ERROR_FACTOR").2.remove "SEG" "INTERSECTION_LIMIT").2).getParam "SEG" "RESIDUAL_ERROR_FACTOR" = none := by
    rw [getParam_removeSeg_ne _ "INTERSECTION_LIMIT" "RESIDUAL_ERROR_FACTOR" (by decide)]
    exact getParam_remove_self (((((ps.remove "SEG" "MARKER_DIAMETER").2.remove "SEG" "DATA_LIMITS").2.remove "SEG" "ACC_FACTOR").2.remove "SEG" "NOISE_FACTOR").2) "SEG" "RESIDUAL_ERROR_FACTOR" hw4
  have R5 : (((((((ps.remove "SEG" "MARKER_DIAMETER").2.remove "SEG" "DATA_LIMITS").2.remove "SEG" "ACC_FACTOR").2.remove "SEG" "NOISE_FACTOR").2.remove "SEG" "RESIDUAL_ERROR_FACTOR").2.remove "SEG" "INTERSECTION_LIMIT").2).getParam "SEG" "INTERSECTION_LIMIT" = none := by
    exact getParam_remove_self ((((((ps.remove "SEG" "MARKER_DIAMETER").2.remove "SEG" "DATA_LIMITS").2.remove "SEG" "ACC_FACTOR").2.remove "SEG" "NOISE_FACTOR").2.remove "SEG" "RESIDUAL_ERROR_FACTOR").2) "SEG" "INTERSECTION_LIMIT" hw5
  intro j
  fin_cases j
  · exact R0
  · exact R1
  · exact R2
  · exact R3
  · exact R4
  · exact R5

/-- Execution characterization of a failing `Seg::from_parameters` over a
well-formed store: some field's typed conversion failed with the returned
error, and that field together with every field preceding it in the
extraction order has already been removed from the residual store. -/
theorem fromParameters_error_spec (ps : Parameters) (e : C3dParseError) (ps' : Parameters)
    (hwf : wfStore ps) (h : Seg.fromParameters ps = (.error e, ps')) :
    ∃ k : Fin 6, (∃ p, ps.getParam "SEG" (segName k) = some p ∧ segConv k p = .error e) ∧
      ∀ j : Fin 6, j ≤ k → ps'.getParam "SEG" (segName j) = none := by
  unfold Seg.fromParameters at h
  dsimp only at h
  have hw0 : wfStore ps := hwf
  have hw1 : wfStore ((ps.remove "SEG" "MARKER_DIAMETER").2) := wfStore_remove _ _ _ hw0
  have hw2 : wfStore (((ps.remove "SEG" "MARKER_DIAMETER").2.remove "SEG" "DATA_LIMITS").2) := wfStore_remove _ _ _ hw1
  have hw3 : wfStore ((((ps.remove "SEG" "MARKER_DIAMETER").2.remove "SEG" "DATA_LIMITS").2.remove "SEG" "ACC_FACTOR").2) := wfStore_remove _ _ _ hw2
  have hw4 : wfStore (((((ps.remove "SEG" "MARKER_DIAMETER").2.remove "SEG" "DATA_LIMITS").2.remove "SEG" "ACC_FACTOR").2.remove "SEG" "NOISE_FACTOR").2) := wfStore_remove _ _ _ hw3
  have hw5 : wfStore ((((((ps.remove "SEG" "MARKER_DIAMETER").2.remove "SEG" "DATA_LIMITS").2.remove "SEG" "ACC_FACTOR").2.remove "SEG" "NOISE_FACTOR").2.remove "SEG" "RESIDUAL_ERROR_FACTOR").2) := wfStore_remove _ _ _ hw4
  split at h
  next e2 heq0 =>
    rw [Prod.mk.injEq] at h
    obtain ⟨hv, hps⟩ := h
    rw [Except.error.injEq] at hv
    subst hv
    subst hps
    rw [fst_remove] at heq0
    obtain ⟨p, hp, hpe⟩ := convOpt_error _ _ _ heq0
    have R0 : ((ps.remove "SEG" "MARKER_DIAMETER").2).getParam "SEG" "MARKER_DIAMETER" = none := by
      exact getParam_remove_self (ps) "SEG" "MARKER_DIAMETER" hw0
    refine ⟨0, ⟨p, hp, ?_⟩, ?_⟩
    · rw [segConv, if_neg (by decide), hpe]
      rfl
    · intro j hj
      fin_cases j
      · exact R0
      · exact absurd hj (by decide)
      · exact absurd hj (by decide)
      · exact absurd hj (by decide)
      · exact absurd hj (by decide)
      · exact absurd hj (by decide)
  next md heq0x =>
  split at h
  next e2 heq1 =>
    rw [Prod.mk.injEq] at h
    obtain ⟨hv, hps⟩ := h
    rw [Except.error.injEq] at hv
    subst hv
    subst hps
    rw [fst_remove, getParam_removeSeg_ne _ "MARKER_DIAMETER" "DATA_LIMITS" (by decide)] at heq1
    obtain ⟨p, hp, hpe⟩ := convOpt_error _ _ _ heq1
    have R0 : (((ps.remove "SEG" "MARKER_DIAMETER").2.remove "SEG" "DATA_LIMITS").2).getParam "SEG" "MARKER_DIAMETER" = none := by
      rw [getParam_removeSeg_ne _ "DATA_LIMITS" "MARKER_DIAMETER" (by decide)]
      exact getParam_remove_self (ps) "SEG" "MARKER_DIAMETER" hw0
    have R1 : (((ps.remove "SEG" "MARKER_DIAMETER").2.remove "SEG" "DATA_LIMITS").2).getParam "SEG" "DATA_LIMITS" = none := by
      exact getParam_remove_self ((ps.remove "SEG" "MARKER_DIAMETER").2) "SEG" "DATA_LIMITS" hw1
    refine ⟨1, ⟨p, hp, ?_⟩, ?_⟩
    · rw [segConv, if_pos rfl, hpe]
      rfl
    · intro j hj
      fin_cases j
      · exact R0
      · exact R1
      · exact absurd hj (by decide)
      · exact absurd hj (by decide)
      · exact absurd hj (by decide)
      · exact absurd hj (by decide)
  next dl heq1x =>
  split at h
  next e2 heq2 =>
    rw [Prod.mk.injEq] at h
    obtain ⟨hv, hps⟩ := h
    rw [Except.error.injEq] at hv
    subst hv
    subst hps
    rw [fst_remove, getParam_removeSeg_ne _ "DATA_LIMITS" "ACC_FACTOR" (by decide), getParam_removeSeg_ne _ "MARKER_DIAMETER" "ACC_FACTOR" (by decide)] at heq2
    obtain ⟨p, hp, hpe⟩ := convOpt_error _ _ _ heq2
    have R0 : ((((ps.remove "SEG" "MARKER_DIAMETER").2.remove "SEG" "DATA_LIMITS").2.remove "SEG" "ACC_FACTOR").2).getParam "SEG" "MARKER_DIAMETER" = none := by
      rw [getParam_removeSeg_ne _ "ACC_FACTOR" "MARKER_DIAMETER" (by decide), getParam_removeSeg_ne _ "DATA_LIMITS" "MARKER_DIAMETER" (by decide)]
      exact getParam_remove_self (ps) "SEG" "MARKER_DIAMETER" hw0
    have R1 : ((((ps.remove "SEG" "MARKER_DIAMETER").2.remove "SEG" "DATA_LIMITS").2.remove "SEG" "ACC_FACTOR").2).getParam "SEG" "DATA_LIMITS" = none := by
      rw [getParam_removeSeg_ne _ "ACC_FACTOR" "DATA_LIMITS" (by decide)]
      exact getParam_remove_self ((ps.remove "SEG" "MARKER_DIAMETER").2) "SEG" "DATA_LIMITS" hw1
    have R2 : ((((ps.remove "SEG" "MARKER_DIAMETER").2.remove "SEG" "DATA_LIMITS").2.remove "SEG" "ACC_FACTOR").2).getParam "SEG" "ACC_FACTOR" = none := by
      exact getParam_remove_self (((ps.remove "SEG" "MARKER_DIAMETER").2.remove "SEG" "DATA_LIMITS").2) "SEG" "ACC_FACTOR" hw2
    refine ⟨2, ⟨p, hp, ?_⟩, ?_⟩
    · rw [segConv, if_neg (by decide), hpe]
      rfl
    · intro j hj
      fin_cases j
      · exact R0
      · exact R1
      · exact R2
      · exact absurd hj (by decide)
      · exact absurd hj (by decide)
      · exact absurd hj (by decide)
  next af heq2x =>
  split at h
  next e2 heq3 =>
    rw [Prod.mk.injEq] at h
    obtain ⟨hv, hps⟩ := h
    rw [Except.error.injEq] at hv
    subst hv
    subst hps
    rw [fst_remove, getParam_removeSeg_ne _ "ACC_FACTOR" "NOISE_FACTOR" (by decide), getParam_removeSeg_ne _ "DATA_LIMITS" "NOISE_FACTOR" (by decide), getParam_removeSeg_ne _ "MARKER_DIAMETER" "NOISE_FACTOR" (by decide)] at heq3
    obtain ⟨p, hp, hpe⟩ := convOpt_error _ _ _ heq3
    have R0 : (((((ps.remove "SEG" "MARKER_DIAMETER").2.remove "SEG" "DATA_LIMITS").2.remove "SEG" "ACC_FACTOR").2.remove "SEG" "NOISE_FACTOR").2).getParam "SEG" "MARKER_DIAMETER" = none := by
      rw [getParam_removeSeg_ne _ "NOISE_FACTOR" "MARKER_DIAMETER" (by decide), getParam_removeSeg_ne _ "ACC_FACTOR" "MARKER_DIAMETER" (by decide), getParam_removeSeg_ne _ "DATA_LIMITS" "MARKER_DIAMETER" (by decide)]
      exact getParam_remove_self (ps) "SEG" "MARKER_DIAMETER" hw0
    have R1 : (((((ps.remove "SEG" "MARKER_DIAMETER").2.remove "SEG" "DATA_LIMITS").2.remove "SEG" "ACC_FACTOR").2.remove "SEG" "NOISE_FACTOR").2).getParam "SEG" "DATA_LIMITS" = none := by
      rw [getParam_removeSeg_ne _ "NOISE_FACTOR" "DATA_LIMITS" (by decide), getParam_removeSeg_ne _ "ACC_FACTOR" "DATA_LIMITS" (by decide)]
      exact getParam_remove_self ((ps.remove "SEG" "MARKER_DIAMETER").2) "SEG" "DATA_LIMITS" hw1
    have R2 : (((((ps.remove "SEG" "MARKER_DIAMETER").2.remove "SEG" "DATA_LIMITS").2.remove "SEG" "ACC_FACTOR").2.remove "SEG" "NOISE_FACTOR").2).getParam "SEG" "ACC_FACTOR" = none := by
      rw [getParam_removeSeg_ne _ "NOISE_FACTOR" "ACC_FACTOR" (by decide)]
      exact getParam_remove_self (((ps.remove "SEG" "MARKER_DIAMETER").2.remove "SEG" "DATA_LIMITS").2) "SEG" "ACC_FACTOR" hw2
    have R3 : (((((ps.remove "SEG" "MARKER_DIAMETER").2.remove "SEG" "DATA_LIMITS").2.remove "SEG" "ACC_FACTOR").2.remove "SEG" "NOISE_FACTOR").2).getParam "SEG" "NOISE_FACTOR" = none := by
      exact getParam_remove_self ((((ps.remove "SEG" "MARKER_DIAMETER").2.remove "SEG" "DATA_LIMITS").2.remove "SEG" "ACC_FACTOR").2) "SEG" "NOISE_FACTOR" hw3
    refine ⟨3, ⟨p, hp, ?_⟩, ?_⟩
    · rw [segConv, if_neg (by decide), hpe]
      rfl
    · intro j hj
      fin_cases j
      · exact R0
      · exact R1
      · exact R2
      · exact R3
      · exact absurd hj (by decide)
      · exact absurd hj (by decide)
  next nf heq3x =>
  split at h
  next e2 heq4 =>
    rw [Prod.mk.injEq] at h
    obtain ⟨hv, hps⟩ := h
    rw [Except.error.injEq] at hv
    subst hv
    subst hps
    rw [fst_remove, getParam_removeSeg_ne _ "NOISE_FACTOR" "RESIDUAL_ERROR_FACTOR" (by decide), getParam_removeSeg_ne _ "ACC_FACTOR" "RESIDUAL_ERROR_FACTOR" (by decide), getParam_removeSeg_ne _ "DATA_LIMITS" "RESIDUAL_ERROR_FACTOR" (by decide), getParam_removeSeg_ne _ "MARKER_DIAMETER" "RESIDUAL_ERROR_FACTOR" (by decide)] at heq4
    obtain ⟨p, hp, hpe⟩ := convOpt_error _ _ _ heq4
    have R0 : ((((((ps.remove "SEG" "MARKER_DIAMETER").2.remove "SEG" "DATA_LIMITS").2.remove "SEG" "ACC_FACTOR").2.remove "SEG" "NOISE_FACTOR").2.remove "SEG" "RESIDUAL_ERROR_FACTOR").2).getParam "SEG" "MARKER_DIAMETER" = none := by
      rw [getParam_removeSeg_ne _ "RESIDUAL_ERROR_FACTOR" "MARKER_DIAMETER" (by decide), getParam_removeSeg_ne _ "NOISE_FACTOR" "MARKER_DIAMETER" (by decide), getParam_removeSeg_ne _ "ACC_FACTOR" "MARKER_DIAMETER" (by decide), getParam_removeSeg_ne _ "DATA_LIMITS" "MARKER_DIAMETER" (by decide)]
      exact getParam_remove_self (ps) "SEG" "MARKER_DIAMETER" hw0
    have R1 : ((((((ps.remove "SEG" "MARKER_DIAMETER").2.remove "SEG" "DATA_LIMITS").2.remove "SEG" "ACC_FACTOR").2.remove "SEG" "NOISE_FACTOR").2.remove "SEG" "RESIDUAL_ERROR_FACTOR").2).getParam "SEG" "DATA_LIMITS" = none := by
      rw [getParam_removeSeg_ne _ "RESIDUAL_ERROR_FACTOR" "DATA_LIMITS" (by decide), getParam_removeSeg_ne _ "NOISE_FACTOR" "DATA_LIMITS" (by decide), getParam_removeSeg_ne _ "ACC_FACTOR" "DATA_LIMITS" (by decide)]
      exact getParam_remove_self ((ps.remove "SEG" "MARKER_DIAMETER").2) "SEG" "DATA_LIMITS" hw1
    have R2 : ((((((ps.remove "SEG" "MARKER_DIAMETER").2.remove "SEG" "DATA_LIMITS").2.remove "SEG" "ACC_FACTOR").2.remove "SEG" "NOISE_FACTOR").2.remove "SEG" "RESIDUAL_ERROR_FACTOR").2).getParam "SEG" "ACC_FACTOR" = none := by
      rw [getParam_removeSeg_ne _ "RESIDUAL_ERROR_FACTOR" "ACC_FACTOR" (by decide), getParam_removeSeg_ne _ "NOISE_FACTOR" "ACC_FACTOR" (by decide)]
      exact getParam_remove_self (((ps.remove "SEG" "MARKER_DIAMETER").2.remove "SEG" "DATA_LIMITS").2) "SEG" "ACC_FACTOR" hw2
    have R3 : ((((((ps.remove "SEG" "MARKER_DIAMETER").2.remove "SEG" "DATA_LIMITS").2.remove "SEG" "ACC_FACTOR").2.remove "SEG" "NOISE_FACTOR").2.remove "SEG" "RESIDUAL_ERROR_FACTOR").2).getParam "SEG" "NOISE_FACTOR" = none := by
      rw [getParam_removeSeg_ne _ "RESIDUAL_ERROR_FACTOR" "NOISE_FACTOR" (by decide)]
      exact getParam_remove_self ((((ps.remove "SEG" "MARKER_DIAMETER").2.remove "SEG" "DATA_LIMITS").2.remove "SEG" "ACC_FACTOR").2) "SEG" "NOISE_FACTOR" hw3
    have R4 : ((((((ps.remove "SEG" "MARKER_DIAMETER").2.remove "SEG" "DATA_LIMITS").2.remove "SEG" "ACC_FACTOR").2.remove "SEG" "NOISE_FACTOR").2.remove "SEG" "RESIDUAL_ERROR_FACTOR").2).getParam "SEG" "RESIDUAL_ERROR_FACTOR" = none := by
      exact getParam_remove_self (((((ps.remove "SEG" "MARKER_DIAMETER").2.remove "SEG" "DATA_LIMITS").2.remove "SEG" "ACC_FACTOR").2.remove "SEG" "NOISE_FACTOR").2) "SEG" "RESIDUAL_ERROR_FACTOR" hw4
    refine ⟨4, ⟨p, hp, ?_⟩, ?_⟩
    · rw [segConv, if_neg (by decide), hpe]
      rfl
    · intro j hj
      fin_cases j
      · exact R0
      · exact R1
      · exact R2
      · exact R3
      · exact R4
      · exact absurd hj (by decide)
  next ref heq4x =>
  split at h
  next e2 heq5 =>
    rw [Prod.mk.injEq] at h
    obtain ⟨hv, hps⟩ := h
    rw [Except.error.injEq] at hv
    subst hv
    subst hps
    rw [fst_remove, getParam_removeSeg_ne _ "RESIDUAL_ERROR_FACTOR" "INTERSECTION_LIMIT" (by decide), getParam_removeSeg_ne _ "NOISE_FACTOR" "INTERSECTION_LIMIT" (by decide), getParam_removeSeg_ne _ "ACC_FACTOR" "INTERSECTION_LIMIT" (by decide), getParam_removeSeg_ne _ "DATA_LIMITS" "INTERSECTION_LIMIT" (by decide), getParam_removeSeg_ne _ "MARKER_DIAMETER" "INTERSECTION_LIMIT" (by decide)] at heq5
    obtain ⟨p, hp, hpe⟩ := convOpt_error _ _ _ heq5
    have R0 : (((((((ps.remove "SEG" "MARKER_DIAMETER").2.remove "SEG" "DATA_LIMITS").2.remove "SEG" "ACC_FACTOR").2.remove "SEG" "NOISE_FACTOR").2.remove "SEG" "RESIDUAL_ERROR_FACTOR").2.remove "SEG" "INTERSECTION_LIMIT").2).getParam "SEG" "MARKER_DIAMETER" = none := by
      rw [getParam_removeSeg_ne _ "INTERSECTION_LIMIT" "MARKER_DIAMETER" (by decide), getParam_removeSeg_ne _ "RESIDUAL_ERROR_FACTOR" "MARKER_DIAMETER" (by decide), getParam_removeSeg_ne _ "NOISE_FACTOR" "MARKER_DIAMETER" (by decide), getParam_removeSeg_ne _ "ACC_FACTOR" "MARKER_DIAMETER" (by decide), getParam_removeSeg_ne _ "DATA_LIMITS" "MARKER_DIAMETER" (by decide)]
      exact getParam_remove_self (ps) "SEG" "MARKER_DIAMETER" hw0
    have R1 : (((((((ps.remove "SEG" "MARKER_DIAMETER").2.remove "SEG" "DATA_LIMITS").2.remove "SEG" "ACC_FACTOR").2.remove "SEG" "NOISE_FACTOR").2.remove "SEG" "RESIDUAL_ERROR_FACTOR").2.remove "SEG" "INTERSECTION_LIMIT").2).getParam "SEG" "DATA_LIMITS" = none := by
      rw [getParam_removeSeg_ne _ "INTERSECTION_LIMIT" "DATA_LIMITS" (by decide), getParam_removeSeg_ne _ "RESIDUAL_ERROR_FACTOR" "DATA_LIMITS" (by decide), getParam_removeSeg_ne _ "NOISE_FACTOR" "DATA_LIMITS" (by decide), getParam_removeSeg_ne _ "ACC_FACTOR" "DATA_LIMITS" (by decide)]
      exact getParam_remove_self ((ps.remove "SEG" "MARKER_DIAMETER").2) "SEG" "DATA_LIMITS" hw1
    have R2 : (((((((ps.remove "SEG" "MARKER_DIAMETER").2.remove "SEG" "DATA_LIMITS").2.remove "SEG" "ACC_FACTOR").2.remove "SEG" "NOISE_FACTOR").2.remove "SEG" "RESIDUAL_ERROR_FACTOR").2.remove "SEG" "INTERSECTION_LIMIT").2).getParam "SEG" "ACC_FACTOR" = none := by
      rw [getParam_removeSeg_ne _ "INTERSECTION_LIMIT" "ACC_FACTOR" (by decide), getParam_removeSeg_ne _ "RESIDUAL_ERROR_FACTOR" "ACC_FACTOR" (by decide), getParam_removeSeg_ne _ "NOISE_FACTOR" "ACC_FACTOR" (by decide)]
      exact getParam_remove_self (((ps.remove "SEG" "MARKER_DIAMETER").2.remove "SEG" "DATA_LIMITS").2) "SEG" "ACC_FACTOR" hw2
    have R3 : (((((((ps.remove "SEG" "MARKER_DIAMETER").2.remove "SEG" "DATA_LIMITS").2.remove "SEG" "ACC_FACTOR").2.remove "SEG" "NOISE_FACTOR").2.remove "SEG" "RESIDUAL_ERROR_FACTOR").2.remove "SEG" "INTERSECTION_LIMIT").2).getParam "SEG" "NOISE_FACTOR" = none := by
      rw [getParam_removeSeg_ne _ "INTERSECTION_LIMIT" "NOISE_FACTOR" (by decide), getParam_removeSeg_ne _ "RESIDUAL_ERROR_FACTOR" "NOISE_FACTOR" (by decide)]
      exact getParam_remove_self ((((ps.remove "SEG" "MARKER_DIAMETER").2.remove "SEG" "DATA_LIMITS").2.remove "SEG" "ACC_FACTOR").2) "SEG" "NOISE_FACTOR" hw3
    have R4 : (((((((ps.remove "SEG" "MARKER_DIAMETER").2.remove "SEG" "DATA_LIMITS").2.remove "SEG" "ACC_FACTOR").2.remove "SEG" "NOISE_FACTOR").2.remove "SEG" "RESIDUAL_ERROR_FACTOR").2.remove "SEG" "INTERSECTION_LIMIT").2).getParam "SEG" "RESIDUAL_ERROR_FACTOR" = none := by
      rw [getParam_removeSeg_ne _ "INTERSECTION_LIMIT" "RESIDUAL_ERROR_FACTOR" (by decide)]
      exact getParam_remove_self (((((ps.remove "SEG" "MARKER_DIAMETER").2.remove "SEG" "DATA_LIMITS").2.remove "SEG" "ACC_FACTOR").2.remove "SEG" "NOISE_FACTOR").2) "SEG" "RESIDUAL_ERROR_FACTOR" hw4
    have R5 : (((((((ps.remove "SEG" "MARKER_DIAMETER").2.remove "SEG" "DATA_LIMITS").2.remove "SEG" "ACC_FACTOR").2.remove "SEG" "NOISE_FACTOR").2.remove "SEG" "RESIDUAL_ERROR_FACTOR").2.remove "SEG" "INTERSECTION_LIMIT").2).getParam "SEG" "INTERSECTION_LIMIT" = none := by
      exact getParam_remove_self ((((((ps.remove "SEG" "MARKER_DIAMETER").2.remove "SEG" "DATA_LIMITS").2.remove "SEG" "ACC_FACTOR").2.remove "SEG" "NOISE_FACTOR").2.remove "SEG" "RESIDUAL_ERROR_FACTOR").2) "SEG" "INTERSECTION_LIMIT" hw5
    refine ⟨5, ⟨p, hp, ?_⟩, ?_⟩
    · rw [segConv, if_neg (by decide), hpe]
      rfl
    · intro j hj
      fin_cases j
      · exact R0
      · exact R1
      · exact R2
      · exact R3
      · exact R4
      · exact R5
  next il heq5x =>
  simp at h

/-- Frame property of `Seg::from_parameters`, on every outcome: the lookup
of any entry that is not one of the six documented SEG entries is the same
in the residual store as in the original store. -/
theorem fromParameters_frame_getParam (ps : Parameters) (g' n' : String)
    (hg : eqCI "SEG" g' = false ∨ ∀ j : Fin 6, eqCI (segName j) n' = false) :
    ((Seg.fromParameters ps).2).getParam g' n' = ps.getParam g' n' := by
  have hstep0 : eqCI "SEG" g' = false ∨ eqCI "MARKER_DIAMETER" n' = false :=
    Or.imp_right (fun hh => hh 0) hg
  have hstep1 : eqCI "SEG" g' = false ∨ eqCI "DATA_LIMITS" n' = false :=
    Or.imp_right (fun hh => hh 1) hg
  have hstep2 : eqCI "SEG" g' = false ∨ eqCI "ACC_FACTOR" n' = false :=
    Or.imp_right (fun hh => hh 2) hg
  have hstep3 : eqCI "SEG" g' = false ∨ eqCI "NOISE_FACTOR" n' = false :=
    Or.imp_right (fun hh => hh 3) hg
  have hstep4 : eqCI "SEG" g' = false ∨ eqCI "RESIDUAL_ERROR_FACTOR" n' = false :=
    Or.imp_right (fun hh => hh 4) hg
  have hstep5 : eqCI "SEG" g' = false ∨ eqCI "INTERSECTION_LIMIT" n' = false :=
    Or.imp_right (fun hh => hh 5) hg
  unfold Seg.fromParameters
  dsimp only
  split
  next e heq =>
    exact getParam_remove_frame ps "SEG" "MARKER_DIAMETER" g' n' hstep0
  next v heq =>
  split
  next e heq =>
    show ((_ : Parameters)).getParam g' n' = _
    rw [getParam_remove_frame _ "SEG" "DATA_LIMITS" g' n' hstep1, getParam_remove_frame _ "SEG" "MARKER_DIAMETER" g' n' hstep0]
  next v heq =>
  split
  next e heq =>
    show ((_ : Parameters)).getParam g' n' = _
    rw [getParam_remove_frame _ "SEG" "ACC_FACTOR" g' n' hstep2, getParam_remove_frame _ "SEG" "DATA_LIMITS" g' n' hstep1, getParam_remove_frame _ "SEG" "MARKER_DIAMETER" g' n' hstep0]
  next v heq =>
  split
  next e heq =>
    show ((_ : Parameters)).getParam g' n' = _
    rw [getParam_remove_frame _ "SEG" "NOISE_FACTOR" g' n' hstep3, getParam_remove_frame _ "SEG" "ACC_FACTOR" g' n' hstep2, getParam_remove_frame _ "SEG" "DATA_LIMITS" g' n' hstep1, getParam_remove_frame _ "SEG" "MARKER_DIAMETER" g' n' hstep0]
  next v heq =>
  split
  next e heq =>
    show ((_ : Parameters)).getParam g' n' = _
    rw [getParam_remove_frame _ "SEG" "RESIDUAL_ERROR_FACTOR" g' n' hstep4, getParam_remove_frame _ "SEG" "NOISE_FACTOR" g' n' hstep3, getParam_remove_frame _ "SEG" "ACC_FACTOR" g' n' hstep2, getParam_remove_frame _ "SEG" "DATA_LIMITS" g' n' hstep1, getParam_remove_frame _ "SEG" "MARKER_DIAMETER" g' n' hstep0]
  next v heq =>
  split
  next e heq =>
    show ((_ : Parameters)).getParam g' n' = _
    rw [getParam_remove_frame _ "SEG" "INTERSECTION_LIMIT" g' n' hstep5, getParam_remove_frame _ "SEG" "RESIDUAL_ERROR_FACTOR" g' n' hstep4, getParam_remove_frame _ "SEG" "NOISE_FACTOR" g' n' hstep3, getParam_remove_frame _ "SEG" "ACC_FACTOR" g' n' hstep2, getParam_remove_frame _ "SEG" "DATA_LIMITS" g' n' hstep1, getParam_remove_frame _ "SEG" "MARKER_DIAMETER" g' n' hstep0]
  next v heq =>
  show ((_ : Parameters)).getParam g' n' = _
  rw [getParam_remove_frame _ "SEG" "INTERSECTION_LIMIT" g' n' hstep5, getParam_remove_frame _ "SEG" "RESIDUAL_ERROR_FACTOR" g' n' hstep4, getParam_remove_frame _ "SEG" "NOISE_FACTOR" g' n' hstep3, getParam_remove_frame _ "SEG" "ACC_FACTOR" g' n' hstep2, getParam_remove_frame _ "SEG" "DATA_LIMITS" g' n' hstep1, getParam_remove_frame _ "SEG" "MARKER_DIAMETER" g' n' hstep0]

/-- `Seg::from_parameters` never edits group metadata: on every outcome the
residual store has the same groups, ids, names, descriptions and locked
flags, in the same order. -/
theorem fromParameters_skeleton (ps : Parameters) :
    ((Seg.fromParameters ps).2).skeleton = ps.skeleton := by
  unfold Seg.fromParameters
  dsimp only
  split
  next e heq =>
    show ((_ : Parameters)).skeleton = _
    rw [skeleton_remove]
  next v heq =>
  split
  next e heq =>
    show ((_ : Parameters)).skeleton = _
    rw [skeleton_remove, skeleton_remove]
  next v heq =>
  split
  next e heq =>
    show ((_ : Parameters)).skeleton = _
    rw [skeleton_remove, skeleton_remove, skeleton_remove]
  next v heq =>
  split
  next e heq =>
    show ((_ : Parameters)).skeleton = _
    rw [skeleton_remove, skeleton_remove, skeleton_remove, skeleton_remove]
  next v heq =>
  split
  next e heq =>
    show ((_ : Parameters)).skeleton = _
    rw [skeleton_remove, skeleton_remove, skeleton_remove, skeleton_remove, skeleton_remove]
  next v heq =>
  split
  next e heq =>
    show ((_ : Parameters)).skeleton = _
    rw [skeleton_remove, skeleton_remove, skeleton_remove, skeleton_remove, skeleton_remove, skeleton_remove]
  next v heq =>
  show ((_ : Parameters)).skeleton = _
  rw [skeleton_remove, skeleton_remove, skeleton_remove, skeleton_remove, skeleton_remove, skeleton_remove]

theorem writeOpt_float (proc : Processor) (ids : List (String × Nat)) (n : String)
    (o : Option F32) (bytes : List Nat) (gid : Nat) (hid : ids.lookup "SEG" = some gid) :
    writeOpt proc ids n (o.map Parameter.float) (.ok bytes) =
      .ok (bytes ++ (recsOf n gid (o.map Parameter.float)).flatMap (encodeRec proc)) := by
  cases o with
  | none => simp [writeOpt, recsOf]
  | some x => simp [writeOpt, recsOf, hid, encodeRec, Parameter.float]

theorem writeOpt_floatGrid (proc : Processor) (ids : List (String × Nat)) (n : String)
    (o : Option Grid) (bytes : List Nat) (gid : Nat) (hid : ids.lookup "SEG" = some gid) :
    writeOpt proc ids n (o.map Parameter.floatGrid) (.ok bytes) =
      .ok (bytes ++ (recsOf n gid (o.map Parameter.floatGrid)).flatMap (encodeRec proc)) := by
  cases o with
  | none => simp [writeOpt, recsOf]
  | some g => simp [writeOpt, recsOf, hid, encodeRec, Parameter.floatGrid]

/-- When the group-id lookup knows `"SEG"`, `Seg::write` succeeds and its
output is exactly the concatenated serialization of the view's record
sequence. -/
theorem write_eq_encodeRecords (v : Seg) (proc : Processor) (ids : List (String × Nat))
    (gid : Nat) (hid : ids.lookup "SEG" = some gid) :
    Seg.write v proc ids = .ok ((segRecords v gid).flatMap (encodeRec proc)) := by
  rw [Seg.write,
    writeOpt_float proc ids "MARKER_DIAMETER" v.marker_diameter [] gid hid,
    writeOpt_floatGrid proc ids "DATA_LIMITS" v.data_limits _ gid hid,
    writeOpt_float proc ids "ACC_FACTOR" v.acc_factor _ gid hid,
    writeOpt_float proc ids "NOISE_FACTOR" v.noise_factor _ gid hid,
    writeOpt_float proc ids "RESIDUAL_ERROR_FACTOR" v.residual_error_factor _ gid hid,
    writeOpt_float proc ids "INTERSECTION_LIMIT" v.intersection_limit _ gid hid,
    segRecords]
  simp [List.flatMap_append, List.append_assoc]

theorem wfRec_def (n : String) (gid : Nat) (p : Parameter) :
    wfRec ⟨n, gid, p⟩ ↔ 0 < n.length ∧ n.length < 128 ∧ gid < 128 ∧
      p.dimensions.length < 256 ∧ (∀ d ∈ p.dimensions, d < 256) ∧
      p.description.length < 256 ∧
      (∃ vs, p.data = .float vs ∧ vs.length = p.dimensions.prod) ∧ p.locked = false :=
  Iff.rfl

theorem segRecords_wf (v : Seg) (gid : Nat) (hgid : gid < 128) (hv : wfSeg v) :
    ∀ r ∈ segRecords v gid, wfRec r := by
  intro r hr
  rw [segRecords] at hr
  simp only [List.mem_append, recsOf] at hr
  have hfloat : ∀ n x, (n = "MARKER_DIAMETER" ∨ n = "ACC_FACTOR" ∨ n = "NOISE_FACTOR" ∨
      n = "RESIDUAL_ERROR_FACTOR" ∨ n = "INTERSECTION_LIMIT") →
      wfRec ⟨n, gid, Parameter.float x⟩ := by
    intro n x hn
    rcases hn with rfl | rfl | rfl | rfl | rfl <;>
      (rw [wfRec_def]
       dsimp only [Parameter.float]
       exact ⟨by decide, by decide, hgid, by decide, by decide, by decide,
        ⟨[x], rfl, rfl⟩, rfl⟩)
  rcases hr with ((((h | h) | h) | h) | h) | h
  · rcases hopt : v.marker_diameter with _ | x
    · rw [hopt] at h
      cases h
    · rw [hopt] at h
      simp only [Option.map_some', Option.toList_some, List.mem_singleton] at h
      subst h
      exact hfloat _ x (by simp)
  · rcases hg : v.data_limits with _ | g
    · rw [hg] at h
      cases h
    · rw [hg] at h
      simp only [Option.map_some', Option.toList_some, List.mem_singleton] at h
      subst h
      obtain ⟨h1, h2, h3⟩ := hv g (by rw [hg]; simp)
      rw [wfRec_def]
      dsimp only [Parameter.floatGrid]
      refine ⟨by decide, by decide, hgid, by simp, ?_, by decide,
        ⟨g.data, rfl, ?_⟩, rfl⟩
      · intro d hd
        rcases List.mem_cons.mp hd with rfl | hd2
        · omega
        · rw [List.mem_singleton] at hd2
          subst hd2
          omega
      · rw [h3, h1, h2]
        rfl
  · rcases hopt : v.acc_factor with _ | x
    · rw [hopt] at h
      cases h
    · rw [hopt] at h
      simp only [Option.map_some', Option.toList_some, List.mem_singleton] at h
      subst h
      exact hfloat _ x (by simp)
  · rcases hopt : v.noise_factor with _ | x
    · rw [hopt] at h
      cases h
    · rw [hopt] at h
      simp only [Option.map_some', Option.toList_some, List.mem_singleton] at h
      subst h
      exact hfloat _ x (by simp)
  · rcases hopt : v.residual_error_factor with _ | x
    · rw [hopt] at h
      cases h
    · rw [hopt] at h
      simp only [Option.map_some', Option.toList_some, List.mem_singleton] at h
      subst h
      exact hfloat _ x (by simp)
  · rcases hopt : v.intersection_limit with _ | x
    · rw [hopt] at h
      cases h
    · rw [hopt] at h
      simp only [Option.map_some', Option.toList_some, List.mem_singleton] at h
      subst h
      exact hfloat _ x (by simp)

theorem toList_map {α β : Type} (f : α → β) (o : Option α) :
    o.toList.map f = (o.map f).toList := by
  cases o <;> rfl

theorem chunksOf_labels (cands : List (String × Option Parameter))
    (q : String × Parameter) (hq : q ∈ chunksOf cands) : ∃ c ∈ cands, q.1 = c.1 := by
  induction cands with
  | nil => cases hq
  | cons c rest ih =>
    obtain ⟨n, o⟩ := c
    rw [chunksOf] at hq
    rcases List.mem_append.mp hq with h | h
    · cases o with
      | none => cases h
      | some p =>
        simp only [Option.map_some', Option.toList_some, List.mem_singleton] at h
        subst h
        exact ⟨(n, some p), by simp, rfl⟩
    · obtain ⟨c2, hc2, hl⟩ := ih h
      exact ⟨c2, by simp [hc2], hl⟩

theorem removeParamFromList_chunks (n : String) (o : Option Parameter)
    (rest : List (String × Option Parameter)) (hrest : ∀ c ∈ rest, eqCI c.1 n = false) :
    removeParamFromList (chunksOf ((n, o) :: rest)) n = (o, chunksOf rest) := by
  rw [chunksOf]
  have hnone : ∀ q ∈ chunksOf rest, eqCI q.1 n = false := by
    intro q hq
    obtain ⟨c, hc, hl⟩ := chunksOf_labels rest q hq
    rw [hl]
    exact hrest c hc
  cases o with
  | none =>
    simp only [Option.map_none', Option.toList_none, List.nil_append]
    exact removeParamFromList_not_found _ n hnone
  | some p =>
    simp only [Option.map_some', Option.toList_some, List.cons_append, List.nil_append]
    rw [removeParamFromList, if_pos (eqCI_refl n)]

theorem remove_singleSeg (gid : Nat) (d : String) (lk : Bool)
    (l : List (String × Parameter)) (n : String) :
    Parameters.remove ⟨[⟨gid, "SEG", d, lk, l⟩]⟩ "SEG" n =
      ((removeParamFromList l n).1, ⟨[⟨gid, "SEG", d, lk, (removeParamFromList l n).2⟩]⟩) := by
  rw [Parameters.remove]
  show ((removeFromGroups [⟨gid, "SEG", d, lk, l⟩] "SEG" n).1, _) = _
  rw [removeFromGroups, if_pos (eqCI_refl "SEG")]

/-- The parameter bindings of the store rebuilt from a view's record
sequence: the named optional entries of the six fields, in declared
order. -/
theorem segRecords_params (v : Seg) (gid : Nat) :
    (segRecords v gid).map (fun r => (r.name, r.param)) =
      chunksOf [("MARKER_DIAMETER", v.marker_diameter.map Parameter.float),
        ("DATA_LIMITS", v.data_limits.map Parameter.floatGrid),
        ("ACC_FACTOR", v.acc_factor.map Parameter.float),
        ("NOISE_FACTOR", v.noise_factor.map Parameter.float),
        ("RESIDUAL_ERROR_FACTOR", v.residual_error_factor.map Parameter.float),
        ("INTERSECTION_LIMIT", v.intersection_limit.map Parameter.float)] := by
  simp only [segRecords, recsOf, chunksOf, List.map_append, toList_map, Option.map_map,
    List.append_nil, List.append_assoc]
  rfl

theorem convOpt_tryF32_float (o : Option F32) :
    convOpt tryF32 (o.map Parameter.float) = .ok o := by
  cases o <;> rfl

theorem convOpt_tryFloatGrid_floatGrid (o : Option Grid)
    (h : ∀ g ∈ o, g.rows = 3 ∧ g.cols = 2 ∧ g.data.length = 6) :
    convOpt tryFloatGrid (o.map Parameter.floatGrid) = .ok o := by
  cases o with
  | none => rfl
  | some g =>
    obtain ⟨r, c, d⟩ := g
    obtain ⟨h1, h2, h3⟩ := h ⟨r, c, d⟩ (by simp)
    simp only at h1 h2 h3
    subst h1
    subst h2
    simp [convOpt, tryFloatGrid, Parameter.floatGrid, h3, Except.map]

/-- Rebuilding the SEG view from the store decoded out of a view's own
record sequence recovers the view exactly, leaving an empty SEG group. -/
theorem fromParameters_storeOfRecords (v : Seg) (gid : Nat) (hv : wfSeg v) :
    Seg.fromParameters (storeOfRecords gid (segRecords v gid)) =
      (.ok v, storeOfRecords gid []) := by
  obtain ⟨f1, f2, f3, f4, f5, f6⟩ := v
  have hgrid : ∀ g ∈ f2, g.rows = 3 ∧ g.cols = 2 ∧ g.data.length = 6 := hv
  have side0 : ∀ c ∈ [("DATA_LIMITS", f2.map Parameter.floatGrid), ("ACC_FACTOR", f3.map Parameter.float), ("NOISE_FACTOR", f4.map Parameter.float), ("RESIDUAL_ERROR_FACTOR", f5.map Parameter.float), ("INTERSECTION_LIMIT", f6.map Parameter.float)] ,
      eqCI c.1 "MARKER_DIAMETER" = false := by
    intro c hc
    simp only [List.mem_cons, List.not_mem_nil, or_false] at hc
    rcases hc with rfl | rfl | rfl | rfl | rfl
    · exact (by decide : eqCI "DATA_LIMITS" "MARKER_DIAMETER" = false)
    · exact (by decide : eqCI "ACC_FACTOR" "MARKER_DIAMETER" = false)
    · exact (by decide : eqCI "NOISE_FACTOR" "MARKER_DIAMETER" = false)
    · exact (by decide : eqCI "RESIDUAL_ERROR_FACTOR" "MARKER_DIAMETER" = false)
    · exact (by decide : eqCI "INTERSECTION_LIMIT" "MARKER_DIAMETER" = false)
  have side1 : ∀ c ∈ [("ACC_FACTOR", f3.map Parameter.float), ("NOISE_FACTOR", f4.map Parameter.float), ("RESIDUAL_ERROR_FACTOR", f5.map Parameter.float), ("INTERSECTION_LIMIT", f6.map Parameter.float)] ,
      eqCI c.1 "DATA_LIMITS" = false := by
    intro c hc
    simp only [List.mem_cons, List.not_mem_nil, or_false] at hc
    rcases hc with rfl | rfl | rfl | rfl
    · exact (by decide : eqCI "ACC_FACTOR" "DATA_LIMITS" = false)
    · exact (by decide : eqCI "NOISE_FACTOR" "DATA_LIMITS" = false)
    · exact (by decide : eqCI "RESIDUAL_ERROR_FACTOR" "DATA_LIMITS" = false)
    · exact (by decide : eqCI "INTERSECTION_LIMIT" "DATA_LIMITS" = false)
  have side2 : ∀ c ∈ [("NOISE_FACTOR", f4.map Parameter.float), ("RESIDUAL_ERROR_FACTOR", f5.map Parameter.float), ("INTERSECTION_LIMIT", f6.map Parameter.float)] ,
      eqCI c.1 "ACC_FACTOR" = false := by
    intro c hc
    simp only [List.mem_cons, List.not_mem_nil, or_false] at hc
    rcases hc with rfl | rfl | rfl
    · exact (by decide : eqCI "NOISE_FACTOR" "ACC_FACTOR" = false)
    · exact (by decide : eqCI "RESIDUAL_ERROR_FACTOR" "ACC_FACTOR" = false)
    · exact (by decide : eqCI "INTERSECTION_LIMIT" "ACC_FACTOR" = false)
  have side3 : ∀ c ∈ [("RESIDUAL_ERROR_FACTOR", f5.map Parameter.float), ("INTERSECTION_LIMIT", f6.map Parameter.float)] ,
      eqCI c.1 "NOISE_FACTOR" = false := by
    intro c hc
    simp only [List.mem_cons, List.not_mem_nil, or_false] at hc
    rcases hc with rfl | rfl
    · exact (by decide : eqCI "RESIDUAL_ERROR_FACTOR" "NOISE_FACTOR" = false)
    · exact (by decide : eqCI "INTERSECTION_LIMIT" "NOISE_FACTOR" = false)
  have side4 : ∀ c ∈ [("INTERSECTION_LIMIT", f6.map Parameter.float)] ,
      eqCI c.1 "RESIDUAL_ERROR_FACTOR" = false := by
    intro c hc
    simp only [List.mem_cons, List.not_mem_nil, or_false] at hc
    rcases hc with rfl
    · exact (by decide : eqCI "INTERSECTION_LIMIT" "RESIDUAL_ERROR_FACTOR" = false)
  have side5 : ∀ c ∈ ([] : List (String × Option Parameter)),
      eqCI c.1 "INTERSECTION_LIMIT" = false := by
    intro c hc
    cases hc
  rw [storeOfRecords, segRecords_params]
  unfold Seg.fromParameters
  dsimp only
  rw [remove_singleSeg]
  dsimp only
  rw [removeParamFromList_chunks "MARKER_DIAMETER" _ _ side0]
  dsimp only
  rw [convOpt_tryF32_float f1]
  dsimp only
  rw [remove_singleSeg]
  dsimp only
  rw [removeParamFromList_chunks "DATA_LIMITS" _ _ side1]
  dsimp only
  rw [convOpt_tryFloatGrid_floatGrid f2 hgrid]
  dsimp only
  rw [remove_singleSeg]
  dsimp only
  rw [removeParamFromList_chunks "ACC_FACTOR" _ _ side2]
  dsimp only
  rw [convOpt_tryF32_float f3]
  dsimp only
  rw [remove_singleSeg]
  dsimp only
  rw [removeParamFromList_chunks "NOISE_FACTOR" _ _ side3]
  dsimp only
  rw [convOpt_tryF32_float f4]
  dsimp only
  rw [remove_singleSeg]
  dsimp only
  rw [removeParamFromList_chunks "RESIDUAL_ERROR_FACTOR" _ _ side4]
  dsimp only
  rw [convOpt_tryF32_float f5]
  dsimp only
  rw [remove_singleSeg]
  dsimp only
  rw [removeParamFromList_chunks "INTERSECTION_LIMIT" _ _ side5]
  dsimp only
  rw [convOpt_tryF32_float f6]
  dsimp only
  rfl

theorem tryFloatGrid_ok_shape (p : Parameter) (g : Grid) (h : tryFloatGrid p = .ok g) :
    g.rows = 3 ∧ g.cols = 2 ∧ g.data.length = 6 := by
  obtain ⟨dims, pdata, lk, desc⟩ := p
  cases pdata with
  | float values =>
    rw [tryFloatGrid] at h
    dsimp only at h
    split at h
    · rename_i hcond
      rw [Except.ok.injEq] at h
      subst h
      exact ⟨rfl, rfl, hcond.2⟩
    · cases h
  | char l => simp [tryFloatGrid] at h
  | int8 l => simp [tryFloatGrid] at h
  | int16 l => simp [tryFloatGrid] at h

/-- A view built by `Seg::from_parameters` always carries a grid of the
documented shape when the grid field is present. -/
theorem fromParameters_ok_wfSeg (ps : Parameters) (v : Seg) (ps' : Parameters)
    (h : Seg.fromParameters ps = (.ok v, ps')) : wfSeg v := by
  obtain ⟨-, h2, -, -, -, -⟩ := fromParameters_ok_spec ps v ps' h
  intro g hg
  cases ho : ps.getParam "SEG" "DATA_LIMITS" with
  | none =>
    rw [ho, convOpt, Except.ok.injEq] at h2
    rw [← h2] at hg
    cases hg
  | some p =>
    rw [ho, convOpt] at h2
    cases htry : tryFloatGrid p with
    | error e =>
      rw [htry] at h2
      cases h2
    | ok g2 =>
      rw [htry] at h2
      have h2b : some g2 = v.data_limits := by
        have := h2
        rw [show Except.map some (Except.ok g2) = Except.ok (some g2) from rfl,
          Except.ok.injEq] at this
        exact this
      rw [← h2b, Option.mem_def, Option.some.injEq] at hg
      subst hg
      exact tryFloatGrid_ok_shape p g2 htry

theorem mem_recsOf (n : String) (gid : Nat) (o : Option Parameter) (r : Rec)
    (h : r ∈ recsOf n gid o) : ∃ p, o = some p ∧ r = ⟨n, gid, p⟩ := by
  cases o with
  | none => cases h
  | some p =>
    rw [recsOf, Option.map_some', Option.toList_some, List.mem_singleton] at h
    exact ⟨p, rfl, h⟩

/-- Every record `Seg::write` emits carries the locked flag false: the
source passes the literal `false` to every `Parameter::write` call. -/
theorem segRecords_locked (v : Seg) (gid : Nat) :
    ∀ r ∈ segRecords v gid, r.param.locked = false := by
  intro r hr
  rw [segRecords] at hr
  simp only [List.mem_append] at hr
  rcases hr with ((((h | h) | h) | h) | h) | h
  · obtain ⟨p, hp, rfl⟩ := mem_recsOf _ _ _ _ h
    obtain ⟨x, -, hfx⟩ := Option.map_eq_some'.mp hp
    rw [← hfx]
    rfl
  · obtain ⟨p, hp, rfl⟩ := mem_recsOf _ _ _ _ h
    obtain ⟨x, -, hfx⟩ := Option.map_eq_some'.mp hp
    rw [← hfx]
    rfl
  · obtain ⟨p, hp, rfl⟩ := mem_recsOf _ _ _ _ h
    obtain ⟨x, -, hfx⟩ := Option.map_eq_some'.mp hp
    rw [← hfx]
    rfl
  · obtain ⟨p, hp, rfl⟩ := mem_recsOf _ _ _ _ h
    obtain ⟨x, -, hfx⟩ := Option.map_eq_some'.mp hp
    rw [← hfx]
    rfl
  · obtain ⟨p, hp, rfl⟩ := mem_recsOf _ _ _ _ h
    obtain ⟨x, -, hfx⟩ := Option.map_eq_some'.mp hp
    rw [← hfx]
    rfl
  · obtain ⟨p, hp, rfl⟩ := mem_recsOf _ _ _ _ h
    obtain ⟨x, -, hfx⟩ := Option.map_eq_some'.mp hp
    rw [← hfx]
    rfl

theorem writeOpt_not_err (proc : Processor) (ids : List (String × Nat)) (n : String)
    (p : Option Parameter) (acc : WriteResult) (h : ¬ acc.isErr) :
    ¬ (writeOpt proc ids n p acc).isErr := by
  cases acc with
  | err e => exact absurd trivial h
  | panicked => exact h
  | ok bytes =>
    cases p with
    | none => exact h
    | some param =>
      rw [writeOpt]
      show ¬ (match List.lookup "SEG" ids with
        | none => WriteResult.panicked
        | some gid => .ok (bytes ++ param.write proc n gid false)).isErr
      cases List.lookup "SEG" ids with
      | none => exact fun hc => hc
      | some gid => exact fun hc => hc

theorem writeOpt_panicked_acc (proc : Processor) (ids : List (String × Nat)) (n : String)
    (p : Option Parameter) : writeOpt proc ids n p .panicked = .panicked := rfl

theorem writeOpt_panic_of (proc : Processor) (ids : List (String × Nat)) (n : String)
    (q : Parameter) (acc : WriteResult) (hids : ids.lookup "SEG" = none)
    (hacc : ¬ acc.isErr) : writeOpt proc ids n (some q) acc = .panicked := by
  cases acc with
  | err e => exact absurd trivial hacc
  | panicked => rfl
  | ok bytes =>
    rw [writeOpt]
    show (match List.lookup "SEG" ids with
      | none => WriteResult.panicked
      | some gid => .ok (bytes ++ q.write proc n gid false)) = .panicked
    rw [hids]

/-- When the group-id lookup does not know `"SEG"` and at least one field
is present, `Seg::write` panics (the `HashMap` indexing of the missing key),
rather than returning an error value. -/
theorem write_missing_seg (v : Seg) (proc : Processor) (ids : List (String × Nat))
    (hids : ids.lookup "SEG" = none)
    (hsome : v.marker_diameter.isSome = true ∨ v.data_limits.isSome = true ∨
      v.acc_factor.isSome = true ∨ v.noise_factor.isSome = true ∨
      v.residual_error_factor.isSome = true ∨ v.intersection_limit.isSome = true) :
    Seg.write v proc ids = .panicked := by
  rw [Seg.write]
  rcases hsome with h | h | h | h | h | h
  · obtain ⟨x, hx⟩ := Option.isSome_iff_exists.mp h
    have hA : ¬ (WriteResult.ok ([] : List Nat)).isErr := fun hc => hc
    rw [hx, Option.map_some',
      writeOpt_panic_of proc ids "MARKER_DIAMETER" (Parameter.float x) (WriteResult.ok []) hids hA,
      writeOpt_panicked_acc proc ids "DATA_LIMITS" (v.data_limits.map Parameter.floatGrid), writeOpt_panicked_acc proc ids "ACC_FACTOR" (v.acc_factor.map Parameter.float), writeOpt_panicked_acc proc ids "NOISE_FACTOR" (v.noise_factor.map Parameter.float), writeOpt_panicked_acc proc ids "RESIDUAL_ERROR_FACTOR" (v.residual_error_factor.map Parameter.float), writeOpt_panicked_acc proc ids "INTERSECTION_LIMIT" (v.intersection_limit.map Parameter.float)]
  · obtain ⟨x, hx⟩ := Option.isSome_iff_exists.mp h
    have hA : ¬ ((writeOpt proc ids "MARKER_DIAMETER" (v.marker_diameter.map Parameter.float) (WriteResult.ok []))).isErr :=
      (writeOpt_not_err proc ids "MARKER_DIAMETER" (v.marker_diameter.map Parameter.float) (WriteResult.ok []) (fun hc => hc))
    rw [hx, Option.map_some',
      writeOpt_panic_of proc ids "DATA_LIMITS" (Parameter.floatGrid x) (writeOpt proc ids "MARKER_DIAMETER" (v.marker_diameter.map Parameter.float) (WriteResult.ok [])) hids hA,
      writeOpt_panicked_acc proc ids "ACC_FACTOR" (v.acc_factor.map Parameter.float), writeOpt_panicked_acc proc ids "NOISE_FACTOR" (v.noise_factor.map Parameter.float), writeOpt_panicked_acc proc ids "RESIDUAL_ERROR_FACTOR" (v.residual_error_factor.map Parameter.float), writeOpt_panicked_acc proc ids "INTERSECTION_LIMIT" (v.intersection_limit.map Parameter.float)]
  · obtain ⟨x, hx⟩ := Option.isSome_iff_exists.mp h
    have hA : ¬ ((writeOpt proc ids "DATA_LIMITS" (v.data_limits.map Parameter.floatGrid) (writeOpt proc ids "MARKER_DIAMETER" (v.marker_diameter.map Parameter.float) (WriteResult.ok [])))).isErr :=
      (writeOpt_not_err proc ids "DATA_LIMITS" (v.data_limits.map Parameter.floatGrid) (writeOpt proc ids "MARKER_DIAMETER" (v.marker_diameter.map Parameter.float) (WriteResult.ok [])) (writeOpt_not_err proc ids "MARKER_DIAMETER" (v.marker_diameter.map Parameter.float) (WriteResult.ok []) (fun hc => hc)))
    rw [hx, Option.map_some',
      writeOpt_panic_of proc ids "ACC_FACTOR" (Parameter.float x) (writeOpt proc ids "DATA_LIMITS" (v.data_limits.map Parameter.floatGrid) (writeOpt proc ids "MARKER_DIAMETER" (v.marker_diameter.map Parameter.float) (WriteResult.ok []))) hids hA,
      writeOpt_panicked_acc proc ids "NOISE_FACTOR" (v.noise_factor.map Parameter.float), writeOpt_panicked_acc proc ids "RESIDUAL_ERROR_FACTOR" (v.residual_error_factor.map Parameter.float), writeOpt_panicked_acc proc ids "INTERSECTION_LIMIT" (v.intersection_limit.map Parameter.float)]
  · obtain ⟨x, hx⟩ := Option.isSome_iff_exists.mp h
    have hA : ¬ ((writeOpt proc ids "ACC_FACTOR" (v.acc_factor.map Parameter.float) (writeOpt proc ids "DATA_LIMITS" (v.data_limits.map Parameter.floatGrid) (writeOpt proc ids "MARKER_DIAMETER" (v.marker_diameter.map Parameter.float) (WriteResult.ok []))))).isErr :=
      (writeOpt_not_err proc ids "ACC_FACTOR" (v.acc_factor.map Parameter.float) (writeOpt proc ids "DATA_LIMITS" (v.data_limits.map Parameter.floatGrid) (writeOpt proc ids "MARKER_DIAMETER" (v.marker_diameter.map Parameter.float) (WriteResult.ok []))) (writeOpt_not_err proc ids "DATA_LIMITS" (v.data_limits.map Parameter.floatGrid) (writeOpt proc ids "MARKER_DIAMETER" (v.marker_diameter.map Parameter.float) (WriteResult.ok [])) (writeOpt_not_err proc ids "MARKER_DIAMETER" (v.marker_diameter.map Parameter.float) (WriteResult.ok []) (fun hc => hc))))
    rw [hx, Option.map_some',
      writeOpt_panic_of proc ids "NOISE_FACTOR" (Parameter.float x) (writeOpt proc ids "ACC_FACTOR" (v.acc_factor.map Parameter.float) (writeOpt proc ids "DATA_LIMITS" (v.data_limits.map Parameter.floatGrid) (writeOpt proc ids "MARKER_DIAMETER" (v.marker_diameter.map Parameter.float) (WriteResult.ok [])))) hids hA,
      writeOpt_panicked_acc proc ids "RESIDUAL_ERROR_FACTOR" (v.residual_error_factor.map Parameter.float), writeOpt_panicked_acc proc ids "INTERSECTION_LIMIT" (v.intersection_limit.map Parameter.float)]
  · obtain ⟨x, hx⟩ := Option.isSome_iff_exists.mp h
    have hA : ¬ ((writeOpt proc ids "NOISE_FACTOR" (v.noise_factor.map Parameter.float) (writeOpt proc ids "ACC_FACTOR" (v.acc_factor.map Parameter.float) (writeOpt proc ids "DATA_LIMITS" (v.data_limits.map Parameter.floatGrid) (writeOpt proc ids "MARKER_DIAMETER" (v.marker_diameter.map Parameter.float) (WriteResult.ok [])))))).isErr :=
      (writeOpt_not_err proc ids "NOISE_FACTOR" (v.noise_factor.map Parameter.float) (writeOpt proc ids "ACC_FACTOR" (v.acc_factor.map Parameter.float) (writeOpt proc ids "DATA_LIMITS" (v.data_limits.map Parameter.floatGrid) (writeOpt proc ids "MARKER_DIAMETER" (v.marker_diameter.map Parameter.float) (WriteResult.ok [])))) (writeOpt_not_err proc ids "ACC_FACTOR" (v.acc_factor.map Parameter.float) (writeOpt proc ids "DATA_LIMITS" (v.data_limits.map Parameter.floatGrid) (writeOpt proc ids "MARKER_DIAMETER" (v.marker_diameter.map Parameter.float) (WriteResult.ok []))) (writeOpt_not_err proc ids "DATA_LIMITS" (v.data_limits.map Parameter.floatGrid) (writeOpt proc ids "MARKER_DIAMETER" (v.marker_diameter.map Parameter.float) (WriteResult.ok [])) (writeOpt_not_err proc ids "MARKER_DIAMETER" (v.marker_diameter.map Parameter.float) (WriteResult.ok []) (fun hc => hc)))))
    rw [hx, Option.map_some',
      writeOpt_panic_of proc ids "RESIDUAL_ERROR_FACTOR" (Parameter.float x) (writeOpt proc ids "NOISE_FACTOR" (v.noise_factor.map Parameter.float) (writeOpt proc ids "ACC_FACTOR" (v.acc_factor.map Parameter.float) (writeOpt proc ids "DATA_LIMITS" (v.data_limits.map Parameter.floatGrid) (writeOpt proc ids "MARKER_DIAMETER" (v.marker_diameter.map Parameter.float) (WriteResult.ok []))))) hids hA,
      writeOpt_panicked_acc proc ids "INTERSECTION_LIMIT" (v.intersection_limit.map Parameter.float)]
  · obtain ⟨x, hx⟩ := Option.isSome_iff_exists.mp h
    have hA : ¬ ((writeOpt proc ids "RESIDUAL_ERROR_FACTOR" (v.residual_error_factor.map Parameter.float) (writeOpt proc ids "NOISE_FACTOR" (v.noise_factor.map Parameter.float) (writeOpt proc ids "ACC_FACTOR" (v.acc_factor.map Parameter.float) (writeOpt proc ids "DATA_LIMITS" (v.data_limits.map Parameter.floatGrid) (writeOpt proc ids "MARKER_DIAMETER" (v.marker_diameter.map Parameter.float) (WriteResult.ok []))))))).isErr :=
      (writeOpt_not_err proc ids "RESIDUAL_ERROR_FACTOR" (v.residual_error_factor.map Parameter.float) (writeOpt proc ids "NOISE_FACTOR" (v.noise_factor.map Parameter.float) (writeOpt proc ids "ACC_FACTOR" (v.acc_factor.map Parameter.float) (writeOpt proc ids "DATA_LIMITS" (v.data_limits.map Parameter.floatGrid) (writeOpt proc ids "MARKER_DIAMETER" (v.marker_diameter.map Parameter.float) (WriteResult.ok []))))) (writeOpt_not_err proc ids "NOISE_FACTOR" (v.noise_factor.map Parameter.float) (writeOpt proc ids "ACC_FACTOR" (v.acc_factor.map Parameter.float) (writeOpt proc ids "DATA_LIMITS" (v.data_limits.map Parameter.floatGrid) (writeOpt proc ids "MARKER_DIAMETER" (v.marker_diameter.map Parameter.float) (WriteResult.ok [])))) (writeOpt_not_err proc ids "ACC_FACTOR" (v.acc_factor.map Parameter.float) (writeOpt proc ids "DATA_LIMITS" (v.data_limits.map Parameter.floatGrid) (writeOpt proc ids "MARKER_DIAMETER" (v.marker_diameter.map Parameter.float) (WriteResult.ok []))) (writeOpt_not_err proc ids "DATA_LIMITS" (v.data_limits.map Parameter.floatGrid) (writeOpt proc ids "MARKER_DIAMETER" (v.marker_diameter.map Parameter.float) (WriteResult.ok [])) (writeOpt_not_err proc ids "MARKER_DIAMETER" (v.marker_diameter.map Parameter.float) (WriteResult.ok []) (fun hc => hc))))))
    rw [hx, Option.map_some',
      writeOpt_panic_of proc ids "INTERSECTION_LIMIT" (Parameter.float x) (writeOpt proc ids "RESIDUAL_ERROR_FACTOR" (v.residual_error_factor.map Parameter.float) (writeOpt proc ids "NOISE_FACTOR" (v.noise_factor.map Parameter.float) (writeOpt proc ids "ACC_FACTOR" (v.acc_factor.map Parameter.float) (writeOpt proc ids "DATA_LIMITS" (v.data_limits.map Parameter.floatGrid) (writeOpt proc ids "MARKER_DIAMETER" (v.marker_diameter.map Parameter.float) (WriteResult.ok [])))))) hids hA]

theorem optF32Eq_iff (x y : Option F32) :
    optF32Eq x y = true ↔ optFieldAgrees x y := by
  cases x <;> cases y <;> simp [optF32Eq, optFieldAgrees]

/-- C7: two `Seg` views compare equal exactly when every field is absent
in both or present in both with equal value — float fields under IEEE-754
`f32` equality, the `data_limits` field by comparing the grids' flattened
contents in iteration order, independent of the grids' declared
dimensions. -/
theorem claim_C7_equality (a b : Seg) :
    Seg.eq a b = true ↔
      optFieldAgrees a.marker_diameter b.marker_diameter ∧
      gridFieldAgrees a.data_limits b.data_limits ∧
      optFieldAgrees a.acc_factor b.acc_factor ∧
      optFieldAgrees a.noise_factor b.noise_factor ∧
      optFieldAgrees a.residual_error_factor b.residual_error_factor ∧
      optFieldAgrees a.intersection_limit b.intersection_limit := by
  obtain ⟨a1, a2, a3, a4, a5, a6⟩ := a
  obtain ⟨b1, b2, b3, b4, b5, b6⟩ := b
  rw [Seg.eq]
  dsimp only
  cases a2 <;> cases b2 <;>
    simp [Bool.and_eq_true, optF32Eq_iff, gridFieldAgrees, and_assoc, and_left_comm]

theorem convOpt_some (f : Parameter → Except C3dParseError Grid) (p : Parameter) :
    convOpt f (some p) = (f p).map some := rfl

theorem exceptMap_eq_error {α β : Type} (g : α → β) (r : Except C3dParseError α)
    (e : C3dParseError) (h : Except.map g r = .error e) : r = .error e := by
  cases r with
  | error e2 => cases h; rfl
  | ok a => cases h

theorem tryFloatGrid_bad (p : Parameter) (vs : List F32) (hd : p.data = .float vs)
    (hbad : ¬ (p.dimensions = [3, 2] ∧ vs.length = 6)) :
    tryFloatGrid p = .error .dimensionMismatch := by
  obtain ⟨dims, pdata, lk, desc⟩ := p
  simp only at hd
  subst hd
  rw [tryFloatGrid]
  dsimp only
  rw [if_neg hbad]

/-- C1: a typed SEG view built by `Seg::from_parameters` from a store and
re-serialized by `Seg::write` decodes back, through the record parser and
the rebuilt SEG store, into exactly the same view: every absent field stays
absent and every present field keeps its value bit-for-bit (the rebuilt
view is equal to the original as a value). -/
theorem claim_C1_roundtrip (ps : Parameters) (v : Seg) (ps1 : Parameters)
    (proc : Processor) (ids : List (String × Nat)) (gid : Nat)
    (hbuild : Seg.fromParameters ps = (.ok v, ps1))
    (hid : ids.lookup "SEG" = some gid) (hgid : gid < 128) :
    ∃ bytes recs ps2, Seg.write v proc ids = .ok bytes ∧
      parseAll proc bytes = some recs ∧
      Seg.fromParameters (storeOfRecords gid recs) = (.ok v, ps2) := by
  have hwf := fromParameters_ok_wfSeg ps v ps1 hbuild
  exact ⟨(segRecords v gid).flatMap (encodeRec proc), segRecords v gid, storeOfRecords gid [],
    write_eq_encodeRecords v proc ids gid hid,
    parseAll_flatMap proc _ (segRecords_wf v gid hgid hwf),
    fromParameters_storeOfRecords v gid hwf⟩

theorem claim_C1_witness :
    ∃ bytes recs ps2,
      Seg.write ⟨some x14, none, none, none, none, none⟩ .intel [("SEG", 3)] = .ok bytes ∧
      parseAll .intel bytes = some recs ∧
      Seg.fromParameters (storeOfRecords 3 recs) =
        (.ok ⟨some x14, none, none, none, none, none⟩, ps2) :=
  claim_C1_roundtrip wStore1 ⟨some x14, none, none, none, none, none⟩
    ⟨[⟨3, "SEG", "", false, []⟩]⟩ .intel [("SEG", 3)] 3 (by decide) (by decide) (by decide)

theorem convOpt_ok_of_none {α : Type} (f : Parameter → Except C3dParseError α)
    (r : Option α) (h : convOpt f none = .ok r) : r = none := by
  rw [convOpt] at h
  cases h
  rfl

theorem convOpt_ok_of_some {α : Type} (f : Parameter → Except C3dParseError α)
    (p : Parameter) (r : Option α) (h : convOpt f (some p) = .ok r) :
    ∃ x, f p = .ok x ∧ r = some x := by
  rw [convOpt] at h
  cases hf : f p with
  | error e =>
    rw [hf] at h
    cases h
  | ok x =>
    rw [hf] at h
    cases h
    exact ⟨x, rfl, rfl⟩

/-- C2: `Seg::from_parameters` takes each of its six documented fields out
of the store via `remove("SEG", name)`: when the view is built, an absent
entry yields an absent field, a present entry yields `Some` of its typed
conversion, and (under the store's uniqueness invariant) every one of the
six entries has been removed from the residual store. -/
theorem claim_C2_field_extraction (ps : Parameters) (v : Seg) (ps' : Parameters)
    (h : Seg.fromParameters ps = (.ok v, ps')) :
    ((ps.getParam "SEG" "MARKER_DIAMETER" = none → v.marker_diameter = none) ∧
      ∀ p, ps.getParam "SEG" "MARKER_DIAMETER" = some p →
        ∃ x, tryF32 p = .ok x ∧ v.marker_diameter = some x) ∧
    ((ps.getParam "SEG" "DATA_LIMITS" = none → v.data_limits = none) ∧
      ∀ p, ps.getParam "SEG" "DATA_LIMITS" = some p →
        ∃ g, tryFloatGrid p = .ok g ∧ v.data_limits = some g) ∧
    ((ps.getParam "SEG" "ACC_FACTOR" = none → v.acc_factor = none) ∧
      ∀ p, ps.getParam "SEG" "ACC_FACTOR" = some p →
        ∃ x, tryF32 p = .ok x ∧ v.acc_factor = some x) ∧
    ((ps.getParam "SEG" "NOISE_FACTOR" = none → v.noise_factor = none) ∧
      ∀ p, ps.getParam "SEG" "NOISE_FACTOR" = some p →
        ∃ x, tryF32 p = .ok x ∧ v.noise_factor = some x) ∧
    ((ps.getParam "SEG" "RESIDUAL_ERROR_FACTOR" = none → v.residual_error_factor = none) ∧
      ∀ p, ps.getParam "SEG" "RESIDUAL_ERROR_FACTOR" = some p →
        ∃ x, tryF32 p = .ok x ∧ v.residual_error_factor = some x) ∧
    ((ps.getParam "SEG" "INTERSECTION_LIMIT" = none → v.intersection_limit = none) ∧
      ∀ p, ps.getParam "SEG" "INTERSECTION_LIMIT" = some p →
        ∃ x, tryF32 p = .ok x ∧ v.intersection_limit = some x) ∧
    (wfStore ps → ∀ j : Fin 6, ps'.getParam "SEG" (segName j) = none) := by
  obtain ⟨h1, h2, h3, h4, h5, h6⟩ := fromParameters_ok_spec ps v ps' h
  refine ⟨⟨?_, ?_⟩, ⟨?_, ?_⟩, ⟨?_, ?_⟩, ⟨?_, ?_⟩, ⟨?_, ?_⟩, ⟨?_, ?_⟩,
    fun hwf => fromParameters_ok_removed ps v ps' hwf h⟩
  · intro ho
    rw [ho] at h1
    exact convOpt_ok_of_none _ _ h1
  · intro p hp
    rw [hp] at h1
    obtain ⟨x, hx, hr⟩ := convOpt_ok_of_some _ _ _ h1
    exact ⟨x, hx, hr⟩
  · intro ho
    rw [ho] at h2
    exact convOpt_ok_of_none _ _ h2
  · intro p hp
    rw [hp] at h2
    obtain ⟨x, hx, hr⟩ := convOpt_ok_of_some _ _ _ h2
    exact ⟨x, hx, hr⟩
  · intro ho
    rw [ho] at h3
    exact convOpt_ok_of_none _ _ h3
  · intro p hp
    rw [hp] at h3
    obtain ⟨x, hx, hr⟩ := convOpt_ok_of_some _ _ _ h3
    exact ⟨x, hx, hr⟩
  · intro ho
    rw [ho] at h4
    exact convOpt_ok_of_none _ _ h4
  · intro p hp
    rw [hp] at h4
    obtain ⟨x, hx, hr⟩ := convOpt_ok_of_some _ _ _ h4
    exact ⟨x, hx, hr⟩
  · intro ho
    rw [ho] at h5
    exact convOpt_ok_of_none _ _ h5
  · intro p hp
    rw [hp] at h5
    obtain ⟨x, hx, hr⟩ := convOpt_ok_of_some _ _ _ h5
    exact ⟨x, hx, hr⟩
  · intro ho
    rw [ho] at h6
    exact convOpt_ok_of_none _ _ h6
  · intro p hp
    rw [hp] at h6
    obtain ⟨x, hx, hr⟩ := convOpt_ok_of_some _ _ _ h6
    exact ⟨x, hx, hr⟩

theorem claim_C2_witness :
    ((wStore1.getParam "SEG" "MARKER_DIAMETER" = none →
        (⟨some x14, none, none, none, none, none⟩ : Seg).marker_diameter = none) ∧
      ∀ p, wStore1.getParam "SEG" "MARKER_DIAMETER" = some p →
        ∃ x, tryF32 p = .ok x ∧
          (⟨some x14, none, none, none, none, none⟩ : Seg).marker_diameter = some x) ∧
    ((wStore1.getParam "SEG" "DATA_LIMITS" = none →
        (⟨some x14, none, none, none, none, none⟩ : Seg).data_limits = none) ∧
      ∀ p, wStore1.getParam "SEG" "DATA_LIMITS" = some p →
        ∃ g, tryFloatGrid p = .ok g ∧
          (⟨some x14, none, none, none, none, none⟩ : Seg).data_limits = some g) ∧
    ((wStore1.getParam "SEG" "ACC_FACTOR" = none →
        (⟨some x14, none, none, none, none, none⟩ : Seg).acc_factor = none) ∧
      ∀ p, wStore1.getParam "SEG" "ACC_FACTOR" = some p →
        ∃ x, tryF32 p = .ok x ∧
          (⟨some x14, none, none, none, none, none⟩ : Seg).acc_factor = some x) ∧
    ((wStore1.getParam "SEG" "NOISE_FACTOR" = none →
        (⟨some x14, none, none, none, none, none⟩ : Seg).noise_factor = none) ∧
      ∀ p, wStore1.getParam "SEG" "NOISE_FACTOR" = some p →
        ∃ x, tryF32 p = .ok x ∧
          (⟨some x14, none, none, none, none, none⟩ : Seg).noise_factor = some x) ∧
    ((wStore1.getParam "SEG" "RESIDUAL_ERROR_FACTOR" = none →
        (⟨some x14, none, none, none, none, none⟩ : Seg).residual_error_factor = none) ∧
      ∀ p, wStore1.getParam "SEG" "RESIDUAL_ERROR_FACTOR" = some p →
        ∃ x, tryF32 p = .ok x ∧
          (⟨some x14, none, none, none, none, none⟩ : Seg).residual_error_factor = some x) ∧
    ((wStore1.getParam "SEG" "INTERSECTION_LIMIT" = none →
        (⟨some x14, none, none, none, none, none⟩ : Seg).intersection_limit = none) ∧
      ∀ p, wStore1.getParam "SEG" "INTERSECTION_LIMIT" = some p →
        ∃ x, tryF32 p = .ok x ∧
          (⟨some x14, none, none, none, none, none⟩ : Seg).intersection_limit = some x) ∧
    (wfStore wStore1 → ∀ j : Fin 6,
      (⟨[⟨3, "SEG", "", false, []⟩]⟩ : Parameters).getParam "SEG" (segName j) = none) :=
  claim_C2_field_extraction wStore1 ⟨some x14, none, none, none, none, none⟩
    ⟨[⟨3, "SEG", "", false, []⟩]⟩ (by decide)

theorem recsOf_names (n : String) (gid : Nat) (o : Option Parameter) :
    (recsOf n gid o).map Rec.name = if o.isSome then [n] else [] := by
  cases o <;> rfl

theorem segRecords_names (v : Seg) (gid : Nat) :
    (segRecords v gid).map Rec.name =
      ((if v.marker_diameter.isSome then ["MARKER_DIAMETER"] else []) ++
        (if v.data_limits.isSome then ["DATA_LIMITS"] else []) ++
        (if v.acc_factor.isSome then ["ACC_FACTOR"] else []) ++
        (if v.noise_factor.isSome then ["NOISE_FACTOR"] else []) ++
        (if v.residual_error_factor.isSome then ["RESIDUAL_ERROR_FACTOR"] else []) ++
        (if v.intersection_limit.isSome then ["INTERSECTION_LIMIT"] else [])) := by
  simp only [segRecords, List.map_append, recsOf_names, Option.isSome_map']

/-- C3: `Seg::write` emits exactly one parameter record per present field
and nothing for absent fields, concatenated in declared field order; the
emitted byte sequence is the concatenation of those records' serializations
and (for a well-formed view) decodes back into exactly that record
sequence. -/
theorem claim_C3_write_records (v : Seg) (proc : Processor) (ids : List (String × Nat))
    (gid : Nat) (hid : ids.lookup "SEG" = some gid) :
    ∃ recs, Seg.write v proc ids = .ok (recs.flatMap (encodeRec proc)) ∧
      recs.map Rec.name =
        ((if v.marker_diameter.isSome then ["MARKER_DIAMETER"] else []) ++
          (if v.data_limits.isSome then ["DATA_LIMITS"] else []) ++
          (if v.acc_factor.isSome then ["ACC_FACTOR"] else []) ++
          (if v.noise_factor.isSome then ["NOISE_FACTOR"] else []) ++
          (if v.residual_error_factor.isSome then ["RESIDUAL_ERROR_FACTOR"] else []) ++
          (if v.intersection_limit.isSome then ["INTERSECTION_LIMIT"] else [])) ∧
      (gid < 128 → wfSeg v → parseAll proc (recs.flatMap (encodeRec proc)) = some recs) :=
  ⟨segRecords v gid, write_eq_encodeRecords v proc ids gid hid, segRecords_names v gid,
    fun hgid hv => parseAll_flatMap proc _ (segRecords_wf v gid hgid hv)⟩

theorem claim_C3_witness :
    ∃ recs,
      Seg.write ⟨some x14, none, none, none, none, none⟩ .intel [("SEG", 3)] =
        .ok (recs.flatMap (encodeRec .intel)) ∧
      recs.map Rec.name =
        ((if (some x14).isSome then ["MARKER_DIAMETER"] else []) ++
          (if (none : Option Grid).isSome then ["DATA_LIMITS"] else []) ++
          (if (none : Option F32).isSome then ["ACC_FACTOR"] else []) ++
          (if (none : Option F32).isSome then ["NOISE_FACTOR"] else []) ++
          (if (none : Option F32).isSome then ["RESIDUAL_ERROR_FACTOR"] else []) ++
          (if (none : Option F32).isSome then ["INTERSECTION_LIMIT"] else [])) ∧
      (3 < 128 → wfSeg ⟨some x14, none, none, none, none, none⟩ →
        parseAll .intel (recs.flatMap (encodeRec .intel)) = some recs) :=
  claim_C3_write_records ⟨some x14, none, none, none, none, none⟩ .intel [("SEG", 3)] 3
    (by decide)

/-- C4: if the typed conversion of any present documented field fails,
`Seg::from_parameters` returns an error — no view (partial or otherwise) is
produced. -/
theorem claim_C4_conversion_failure (ps : Parameters) (k : Fin 6) (p : Parameter)
    (e : C3dParseError) (hp : ps.getParam "SEG" (segName k) = some p)
    (he : segConv k p = .error e) :
    ∃ e' ps', Seg.fromParameters ps = (.error e', ps') := by
  rcases hfp : Seg.fromParameters ps with ⟨r, psr⟩
  cases r with
  | error e2 => exact ⟨e2, psr, rfl⟩
  | ok v =>
    exfalso
    obtain ⟨h1, h2, h3, h4, h5, h6⟩ := fromParameters_ok_spec ps v psr hfp
    fin_cases k
    · have hp2 : ps.getParam "SEG" "MARKER_DIAMETER" = some p := hp
      have he2 : Except.map Sum.inl (tryF32 p) = Except.error e := he
      have herr : tryF32 p = .error e := exceptMap_eq_error _ _ _ he2
      rw [hp2] at h1
      obtain ⟨x, hx, -⟩ := convOpt_ok_of_some _ _ _ h1
      rw [herr] at hx
      cases hx
    · have hp2 : ps.getParam "SEG" "DATA_LIMITS" = some p := hp
      have he2 : Except.map Sum.inr (tryFloatGrid p) = Except.error e := he
      have herr : tryFloatGrid p = .error e := exceptMap_eq_error _ _ _ he2
      rw [hp2] at h2
      obtain ⟨x, hx, -⟩ := convOpt_ok_of_some _ _ _ h2
      rw [herr] at hx
      cases hx
    · have hp2 : ps.getParam "SEG" "ACC_FACTOR" = some p := hp
      have he2 : Except.map Sum.inl (tryF32 p) = Except.error e := he
      have herr : tryF32 p = .error e := exceptMap_eq_error _ _ _ he2
      rw [hp2] at h3
      obtain ⟨x, hx, -⟩ := convOpt_ok_of_some _ _ _ h3
      rw [herr] at hx
      cases hx
    · have hp2 : ps.getParam "SEG" "NOISE_FACTOR" = some p := hp
      have he2 : Except.map Sum.inl (tryF32 p) = Except.error e := he
      have herr : tryF32 p = .error e := exceptMap_eq_error _ _ _ he2
      rw [hp2] at h4
      obtain ⟨x, hx, -⟩ := convOpt_ok_of_some _ _ _ h4
      rw [herr] at hx
      cases hx
    · have hp2 : ps.getParam "SEG" "RESIDUAL_ERROR_FACTOR" = some p := hp
      have he2 : Except.map Sum.inl (tryF32 p) = Except.error e := he
      have herr : tryF32 p = .error e := exceptMap_eq_error _ _ _ he2
      rw [hp2] at h5
      obtain ⟨x, hx, -⟩ := convOpt_ok_of_some _ _ _ h5
      rw [herr] at hx
      cases hx
    · have hp2 : ps.getParam "SEG" "INTERSECTION_LIMIT" = some p := hp
      have he2 : Except.map Sum.inl (tryF32 p) = Except.error e := he
      have herr : tryF32 p = .error e := exceptMap_eq_error _ _ _ he2
      rw [hp2] at h6
      obtain ⟨x, hx, -⟩ := convOpt_ok_of_some _ _ _ h6
      rw [herr] at hx
      cases hx

theorem claim_C4_witness :
    ∃ e' ps', Seg.fromParameters badTypeStore = (.error e', ps') :=
  claim_C4_conversion_failure badTypeStore 0 ⟨[3], .char [65, 66, 67], false, ""⟩
    .unexpectedType (by decide) (by decide)

/-- C5 counterexample: a store holding a SEG `DATA_LIMITS` parameter whose
stored extents do not match the documented 3×2 shape (4 elements) on which
`Seg::from_parameters` fails with `UnexpectedType` — not `DimensionMismatch`
— because the earlier-extracted `MARKER_DIAMETER` entry fails its own
conversion first. -/
theorem claim_C5_counterexample :
    maskedBadStore.getParam "SEG" "DATA_LIMITS" =
      some ⟨[4], .float [x0, x0, x0, x0], false, ""⟩ ∧
    (Seg.fromParameters maskedBadStore).1 = .error .unexpectedType ∧
    C3dParseError.unexpectedType ≠ C3dParseError.dimensionMismatch := by
  refine ⟨by decide, by decide, by decide⟩

/-- C5 (amended): if the store holds a SEG `DATA_LIMITS` parameter that is
float-typed but whose stored extents do not match the documented 3×2 shape
(e.g. only 4 elements where 6 are expected), and the `MARKER_DIAMETER`
entry extracted before it is absent or converts successfully, then
`Seg::from_parameters` fails with a `DimensionMismatch` error and returns
no view. -/
theorem claim_C5_amended (ps : Parameters) (p : Parameter) (vs : List F32)
    (hdl : ps.getParam "SEG" "DATA_LIMITS" = some p)
    (hfloat : p.data = .float vs)
    (hbad : ¬ (p.dimensions = [3, 2] ∧ vs.length = 6))
    (hmd : ∀ q, ps.getParam "SEG" "MARKER_DIAMETER" = some q → ∃ x, tryF32 q = .ok x) :
    (Seg.fromParameters ps).1 = .error .dimensionMismatch := by
  have hgrid : tryFloatGrid p = .error .dimensionMismatch := tryFloatGrid_bad p vs hfloat hbad
  unfold Seg.fromParameters
  dsimp only
  split
  next e heq =>
    exfalso
    rw [fst_remove] at heq
    cases ho : ps.getParam "SEG" "MARKER_DIAMETER" with
    | none =>
      rw [ho, convOpt] at heq
      cases heq
    | some q =>
      obtain ⟨x, hx⟩ := hmd q ho
      rw [ho, convOpt, hx] at heq
      cases heq
  next md heq =>
  split
  next e heq1 =>
    rw [fst_remove, getParam_removeSeg_ne _ "MARKER_DIAMETER" "DATA_LIMITS" (by decide),
      hdl, convOpt, hgrid] at heq1
    cases heq1
    rfl
  next dl heq1 =>
    exfalso
    rw [fst_remove, getParam_removeSeg_ne _ "MARKER_DIAMETER" "DATA_LIMITS" (by decide),
      hdl, convOpt, hgrid] at heq1
    cases heq1

theorem claim_C5_witness :
    (Seg.fromParameters badGridStore).1 = .error .dimensionMismatch :=
  claim_C5_amended badGridStore ⟨[4], .float [x0, x0, x0, x0], false, ""⟩ [x0, x0, x0, x0]
    (by decide) rfl (by decide)
    (fun q hq => by
      rw [show badGridStore.getParam "SEG" "MARKER_DIAMETER" = none from by decide] at hq
      cases hq)

/-- C6 counterexample: a view with one present field written against a
group-id lookup with no `"SEG"` entry makes `Seg::write` terminate
abnormally (the modelled `HashMap` indexing panic); it does not return the
`UnknownGroupReference` error value — or any error value. -/
theorem claim_C6_counterexample :
    Seg.write ⟨some x14, none, none, none, none, none⟩ .intel [] = .panicked ∧
    ∀ e : C3dWriteError,
      Seg.write ⟨some x14, none, none, none, none, none⟩ .intel [] ≠ .err e := by
  refine ⟨by decide, ?_⟩
  intro e
  cases e
  decide

/-- C6 (amended): for every view with at least one present field, if the
group-id lookup has no entry for `"SEG"`, `Seg::write` terminates
abnormally (the `HashMap` index panic) instead of returning an error
value. -/
theorem claim_C6_amended (v : Seg) (proc : Processor) (ids : List (String × Nat))
    (hids : ids.lookup "SEG" = none)
    (hsome : v.marker_diameter.isSome = true ∨ v.data_limits.isSome = true ∨
      v.acc_factor.isSome = true ∨ v.noise_factor.isSome = true ∨
      v.residual_error_factor.isSome = true ∨ v.intersection_limit.isSome = true) :
    Seg.write v proc ids = .panicked ∧ ∀ e : C3dWriteError, Seg.write v proc ids ≠ .err e := by
  have h := write_missing_seg v proc ids hids hsome
  refine ⟨h, fun e hc => ?_⟩
  rw [h] at hc
  cases hc

theorem claim_C6_witness :
    Seg.write ⟨none, none, some x14, none, none, none⟩ .dec [("POINT", 1)] = .panicked ∧
    ∀ e : C3dWriteError,
      Seg.write ⟨none, none, some x14, none, none, none⟩ .dec [("POINT", 1)] ≠ .err e :=
  claim_C6_amended ⟨none, none, some x14, none, none, none⟩ .dec [("POINT", 1)]
    (by decide) (Or.inr (Or.inr (Or.inl (by decide))))

/-- C8: `Seg::from_parameters` removes at most the six documented SEG
entries: the lookup of every other group/parameter pair — and, inside SEG,
of every undocumented parameter name — is unchanged in the residual store,
on every outcome, and no group's id, name, description or locked flag is
touched. -/
theorem claim_C8_frame (ps : Parameters) (g' n' : String)
    (h : eqCI "SEG" g' = false ∨ ∀ j : Fin 6, eqCI (segName j) n' = false) :
    ((Seg.fromParameters ps).2).getParam g' n' = ps.getParam g' n' ∧
    ((Seg.fromParameters ps).2).skeleton = ps.skeleton :=
  ⟨fromParameters_frame_getParam ps g' n' h, fromParameters_skeleton ps⟩

theorem claim_C8_witness :
    (((Seg.fromParameters passthroughStore).2).getParam "SEG" "CUSTOM_FIELD" =
        passthroughStore.getParam "SEG" "CUSTOM_FIELD" ∧
      ((Seg.fromParameters passthroughStore).2).skeleton = passthroughStore.skeleton) ∧
    (((Seg.fromParameters passthroughStore).2).getParam "POINT" "SCALE" =
        passthroughStore.getParam "POINT" "SCALE" ∧
      ((Seg.fromParameters passthroughStore).2).skeleton = passthroughStore.skeleton) :=
  ⟨claim_C8_frame passthroughStore "SEG" "CUSTOM_FIELD" (Or.inr (by decide)),
    claim_C8_frame passthroughStore "POINT" "SCALE" (Or.inl (by decide))⟩

/-- C9: when `Seg::from_parameters` fails because the conversion of some
documented field `k` fails, the field `k` and every documented field
preceding it in the fixed extraction order have already been removed from
the store — the failed construction leaves the store mutated even though no
view is returned. -/
theorem claim_C9_partial_mutation (ps : Parameters) (e : C3dParseError) (ps' : Parameters)
    (hwf : wfStore ps) (h : Seg.fromParameters ps = (.error e, ps')) :
    ∃ k : Fin 6, (∃ p, ps.getParam "SEG" (segName k) = some p ∧ segConv k p = .error e) ∧
      ∀ j : Fin 6, j ≤ k → ps'.getParam "SEG" (segName j) = none :=
  fromParameters_error_spec ps e ps' hwf h

theorem claim_C9_witness :
    ∃ k : Fin 6, (∃ p, partialFailStore.getParam "SEG" (segName k) = some p ∧
        segConv k p = .error .dimensionMismatch) ∧
      ∀ j : Fin 6, j ≤ k →
        (⟨[⟨3, "SEG", "", false, []⟩]⟩ : Parameters).getParam "SEG" (segName j) = none :=
  claim_C9_partial_mutation partialFailStore .dimensionMismatch ⟨[⟨3, "SEG", "", false, []⟩]⟩
    (by decide) (by decide)

/-- C10: every parameter record `Seg::write` emits carries the locked flag
false, for every view, processor and lookup: the record sequence it
serializes is all-unlocked, and decoding the produced bytes (for a
well-formed view) yields records whose locked flag is false. -/
theorem claim_C10_locked (v : Seg) (proc : Processor) (ids : List (String × Nat))
    (gid : Nat) (hid : ids.lookup "SEG" = some gid) :
    ∃ recs, Seg.write v proc ids = .ok (recs.flatMap (encodeRec proc)) ∧
      (∀ r ∈ recs, r.param.locked = false) ∧
      (gid < 128 → wfSeg v → parseAll proc (recs.flatMap (encodeRec proc)) = some recs) :=
  ⟨segRecords v gid, write_eq_encodeRecords v proc ids gid hid, segRecords_locked v gid,
    fun hgid hv => parseAll_flatMap proc _ (segRecords_wf v gid hgid hv)⟩

theorem claim_C10_witness :
    ∃ recs,
      Seg.write ⟨some x14, none, some x0, none, none, none⟩ .sgiMips [("SEG", 7)] =
        .ok (recs.flatMap (encodeRec .sgiMips)) ∧
      (∀ r ∈ recs, r.param.locked = false) ∧
      (7 < 128 → wfSeg ⟨some x14, none, some x0, none, none, none⟩ →
        parseAll .sgiMips (recs.flatMap (encodeRec .sgiMips)) = some recs) :=
  claim_C10_locked ⟨some x14, none, some x0, none, none, none⟩ .sgiMips [("SEG", 7)] 7
    (by decide)
